import Mathlib

/-!
# AntennaTracker `GCS_Mavlink.cpp`: command dispatch, target lock and home upload

A shallow embedding of `src/AntennaTracker/GCS_Mavlink.cpp`.

* Values of C type `float` are IEEE-754 binary32 values (`F32`), with
  round-to-nearest-even arithmetic.
* The member variables the file reads and writes are the fields of `State`.
* Every call that leaves the file (vehicle actions, outbound MAVLink
  messages, base-class handlers) is appended to `State.calls`, in order.
  What such a call returns is given by a `Facade`; theorems hold for every
  facade.
* Enumerators and macros declared in headers outside `src/` carry the values
  of the MAVLink common message set and of the build, see `Build`.
-/

/-! ## binary32 arithmetic -/

/-- An IEEE-754 binary32 value, given by its sign bit, its 8-bit biased
exponent and its 23-bit fraction. Every bit pattern is a value of this type
and conversely. -/
structure F32 where
  sign : Bool
  expo : Fin 256
  frac : Fin 8388608
deriving DecidableEq

namespace F32

/-- Not-a-number: all exponent bits set and a non-zero fraction. -/
def isNaN (x : F32) : Bool := x.expo.val == 255 && x.frac.val != 0

/-- Plus or minus infinity. -/
def isInf (x : F32) : Bool := x.expo.val == 255 && x.frac.val == 0

/-- Plus or minus zero. -/
def isZero (x : F32) : Bool := x.expo.val == 0 && x.frac.val == 0

/-- The quiet NaN produced by invalid operations. -/
def nan : F32 := ⟨false, 255, 4194304⟩

/-- Infinity of the given sign. -/
def inf (neg : Bool) : F32 := ⟨neg, 255, 0⟩

/-- Zero of the given sign. -/
def zero (neg : Bool) : F32 := ⟨neg, 0, 0⟩

/-- Integer significand, with the hidden bit for normal numbers. -/
def sig (x : F32) : Nat := if x.expo.val = 0 then x.frac.val else 8388608 + x.frac.val

/-- Binary exponent of the last place: the magnitude is `sig * 2 ^ scale`. -/
def scale (x : F32) : Int := if x.expo.val = 0 then -149 else (x.expo.val : Int) - 150

/-- Numerator of the magnitude `num / den`. -/
def num (x : F32) : Nat := x.sig * 2 ^ x.scale.toNat

/-- Denominator of the magnitude `num / den`, a power of two. -/
def den (x : F32) : Nat := 2 ^ (-x.scale).toNat

/-- Signed numerator: the value is `snum / den`. -/
def snum (x : F32) : Int := if x.sign then -(x.num : Int) else (x.num : Int)

/-- Number of binary digits of `n`, by halving at most `fuel` times. -/
def bitLengthAux : Nat → Nat → Nat
  | 0, _ => 0
  | fuel + 1, n => if n = 0 then 0 else bitLengthAux fuel (n / 2) + 1

/-- Number of binary digits of `n`. -/
def bitLength (n : Nat) : Nat := bitLengthAux n n

/-- Round the magnitude `n / d` (`0 < d`) to the nearest binary32 of the given
sign, ties to even; magnitudes beyond the largest finite value give infinity,
magnitudes below the normal range are rounded on the subnormal grid. -/
def round (neg : Bool) (n d : Nat) : F32 :=
  if n = 0 then zero neg else
  let g : Int := (bitLength n : Int) - (bitLength d : Int)
  let e : Int := if d * 2 ^ g.toNat ≤ n * 2 ^ (-g).toNat then g else g - 1
  let E : Int := max e (-126)
  let N : Nat := n * 2 ^ (23 - E).toNat
  let D : Nat := d * 2 ^ (E - 23).toNat
  let q : Nat := N / D
  let r : Nat := N % D
  let k : Nat :=
    if 2 * r < D then q else if D < 2 * r then q + 1 else if q % 2 = 0 then q else q + 1
  let k1 : Nat := if k = 16777216 then 8388608 else k
  let E1 : Int := if k = 16777216 then E + 1 else E
  if 127 < E1 then inf neg
  else if k1 < 8388608 then ⟨neg, 0, ⟨k1 % 8388608, Nat.mod_lt _ (by decide)⟩⟩
  else ⟨neg, ⟨(E1 + 127).toNat % 256, Nat.mod_lt _ (by decide)⟩,
        ⟨(k1 - 8388608) % 8388608, Nat.mod_lt _ (by decide)⟩⟩

/-- Unary minus. -/
def neg (x : F32) : F32 := { x with sign := !x.sign }

/-- The C function `fabsf`. -/
def abs (x : F32) : F32 := { x with sign := false }

/-- Product of two floats. -/
def mul (x y : F32) : F32 :=
  let s := xor x.sign y.sign
  if x.isNaN || y.isNaN then nan
  else if x.isInf || y.isInf then (if x.isZero || y.isZero then nan else inf s)
  else round s (x.num * y.num) (x.den * y.den)

/-- Quotient of two floats. -/
def div (x y : F32) : F32 :=
  let s := xor x.sign y.sign
  if x.isNaN || y.isNaN then nan
  else if x.isInf then (if y.isInf then nan else inf s)
  else if y.isInf then zero s
  else if y.isZero then (if x.isZero then nan else inf s)
  else round s (x.num * y.den) (x.den * y.num)

/-- Sum of two floats. -/
def add (x y : F32) : F32 :=
  if x.isNaN || y.isNaN then nan
  else if x.isInf then (if y.isInf && (x.sign != y.sign) then nan else x)
  else if y.isInf then y
  else
    let v : Int := x.snum * y.den + y.snum * x.den
    if v = 0 then zero (x.sign && y.sign)
    else round (decide (v < 0)) v.natAbs (x.den * y.den)

/-- Difference of two floats. -/
def sub (x y : F32) : F32 := add x (neg y)

/-- The C comparison `x < y`, false as soon as one side is NaN. -/
def lt (x y : F32) : Bool :=
  !x.isNaN && !y.isNaN && decide (x.snum * y.den < y.snum * x.den)

/-- Conversion of an integer to float, and the value of a decimal literal
that is a whole number. -/
def ofInt (i : Int) : F32 := round (decide (i < 0)) i.natAbs 1

/-- Truncation toward zero of a value that is neither NaN nor infinite. -/
def trunc (x : F32) : Int := Int.tdiv x.snum (x.den : Int)

/-- Conversion of a float to `int32_t` by assignment. C++ defines it only
when the truncated value fits; for the other floats the result is whatever
the target produces, `invalid x`. -/
def toInt32 (invalid : F32 → Int) (x : F32) : Int :=
  if !x.isNaN && !x.isInf && decide (-2147483648 ≤ x.trunc) && decide (x.trunc ≤ 2147483647)
  then x.trunc else invalid x

/-- Conversion of a float to an integer type with values `lo` to `hi`; as
for `toInt32`, `invalid x` stands for what C++ leaves undefined. -/
def toInteger (lo hi : Int) (invalid : F32 → Int) (x : F32) : Int :=
  if !x.isNaN && !x.isInf && decide (lo ≤ x.trunc) && decide (x.trunc ≤ hi)
  then x.trunc else invalid x

end F32

/-- The constant `FLT_EPSILON` of `<float.h>`: two to the power -23. -/
def FLT_EPSILON : F32 := F32.round false 1 8388608

/-- Modelled from the spec: `is_equal` of AP_Math is not under `src/`. The
spec calls it a float equality "tested with a small epsilon": the absolute
difference is below `FLT_EPSILON`. -/
def is_equal (v_1 v_2 : F32) : Bool := F32.lt (F32.abs (F32.sub v_1 v_2)) FLT_EPSILON

/-- Modelled from the spec: `is_zero` of AP_Math is not under `src/`. The
absolute value is below `FLT_EPSILON`. -/
def is_zero (fVal1 : F32) : Bool := F32.lt (F32.abs fVal1) FLT_EPSILON

/-! ## MAVLink enumerators and message structs (declared outside `src/`) -/

/-- Command id of MAVLink `MAV_CMD_COMPONENT_ARM_DISARM`. -/
def MAV_CMD_COMPONENT_ARM_DISARM : Nat := 400

/-- Command id of MAVLink `MAV_CMD_DO_SET_SERVO`. -/
def MAV_CMD_DO_SET_SERVO : Nat := 183

/-- Command id of MAVLink `MAV_CMD_MISSION_START`. -/
def MAV_CMD_MISSION_START : Nat := 300

/-- Component id of MAVLink `MAV_COMP_ID_SYSTEM_CONTROL`. -/
def MAV_COMP_ID_SYSTEM_CONTROL : Nat := 250

/-- Severity `MAV_SEVERITY_INFO` of a status text. -/
def MAV_SEVERITY_INFO : Nat := 6

/-- Vehicle type `MAV_TYPE_FIXED_WING` of a heartbeat. -/
def MAV_TYPE_FIXED_WING : Nat := 1

/-- Vehicle type `MAV_TYPE_ANTENNA_TRACKER` of a heartbeat. -/
def MAV_TYPE_ANTENNA_TRACKER : Nat := 5

/-- Vehicle type `MAV_TYPE_GCS` of a heartbeat. -/
def MAV_TYPE_GCS : Nat := 6

/-- Vehicle type `MAV_TYPE_ONBOARD_CONTROLLER` of a heartbeat. -/
def MAV_TYPE_ONBOARD_CONTROLLER : Nat := 18

/-- Vehicle type `MAV_TYPE_GIMBAL` of a heartbeat. -/
def MAV_TYPE_GIMBAL : Nat := 26

/-- Message id of HEARTBEAT. -/
def MAVLINK_MSG_ID_HEARTBEAT : Nat := 0

/-- Message id of SCALED_PRESSURE. -/
def MAVLINK_MSG_ID_SCALED_PRESSURE : Nat := 29

/-- Message id of GLOBAL_POSITION_INT. -/
def MAVLINK_MSG_ID_GLOBAL_POSITION_INT : Nat := 33

/-- Message id of MISSION_WRITE_PARTIAL_LIST. -/
def MAVLINK_MSG_ID_MISSION_WRITE_PARTIAL_LIST : Nat := 38

/-- Message id of MISSION_ITEM. -/
def MAVLINK_MSG_ID_MISSION_ITEM : Nat := 39

/-- Message id of MANUAL_CONTROL. -/
def MAVLINK_MSG_ID_MANUAL_CONTROL : Nat := 69

/-- Coordinate frame `MAV_FRAME_GLOBAL`. -/
def MAV_FRAME_GLOBAL : Nat := 0

/-- Coordinate frame `MAV_FRAME_MISSION`. -/
def MAV_FRAME_MISSION : Nat := 2

/-- Coordinate frame `MAV_FRAME_GLOBAL_RELATIVE_ALT`. -/
def MAV_FRAME_GLOBAL_RELATIVE_ALT : Nat := 3

/-- Mission type `MAV_MISSION_TYPE_MISSION`. -/
def MAV_MISSION_TYPE_MISSION : Nat := 0

/-- Flag `MAV_MODE_FLAG_CUSTOM_MODE_ENABLED` of the base mode. -/
def MAV_MODE_FLAG_CUSTOM_MODE_ENABLED : Nat := 1

/-- Flag `MAV_MODE_FLAG_TEST_ENABLED` of the base mode. -/
def MAV_MODE_FLAG_TEST_ENABLED : Nat := 2

/-- Flag `MAV_MODE_FLAG_AUTO_ENABLED` of the base mode. -/
def MAV_MODE_FLAG_AUTO_ENABLED : Nat := 4

/-- Flag `MAV_MODE_FLAG_GUIDED_ENABLED` of the base mode. -/
def MAV_MODE_FLAG_GUIDED_ENABLED : Nat := 8

/-- Flag `MAV_MODE_FLAG_STABILIZE_ENABLED` of the base mode. -/
def MAV_MODE_FLAG_STABILIZE_ENABLED : Nat := 16

/-- Flag `MAV_MODE_FLAG_HIL_ENABLED` of the base mode. -/
def MAV_MODE_FLAG_HIL_ENABLED : Nat := 32

/-- Flag `MAV_MODE_FLAG_MANUAL_INPUT_ENABLED` of the base mode. -/
def MAV_MODE_FLAG_MANUAL_INPUT_ENABLED : Nat := 64

/-- Flag `MAV_MODE_FLAG_SAFETY_ARMED` of the base mode. -/
def MAV_MODE_FLAG_SAFETY_ARMED : Nat := 128

/-- System status `MAV_STATE_CALIBRATING`. -/
def MAV_STATE_CALIBRATING : Nat := 2

/-- System status `MAV_STATE_ACTIVE`. -/
def MAV_STATE_ACTIVE : Nat := 4

/-- Payload length of NAV_CONTROLLER_OUTPUT. -/
def MAVLINK_MSG_ID_NAV_CONTROLLER_OUTPUT_LEN : Nat := 26

/-- Payload length of SYS_STATUS. -/
def MAVLINK_MSG_ID_SYS_STATUS_LEN : Nat := 31

/-- The constant `UINT16_MAX`. -/
def UINT16_MAX : Int := 65535

/-- Modelled from the spec: the macro `MASK_OPTIONS_RELATIVE_ALT` is defined
outside `src/`; it is the bit of `Location.options` that flags a relative
altitude. -/
def MASK_OPTIONS_RELATIVE_ALT : Nat := 1

/-- Result of a command, MAVLink `MAV_RESULT`. -/
inductive MAV_RESULT where
  | MAV_RESULT_ACCEPTED
  | MAV_RESULT_TEMPORARILY_REJECTED
  | MAV_RESULT_DENIED
  | MAV_RESULT_UNSUPPORTED
  | MAV_RESULT_FAILED
  | MAV_RESULT_IN_PROGRESS
deriving DecidableEq

/-- Result carried by a mission acknowledgment, MAVLink `MAV_MISSION_RESULT`
(the members this file produces). -/
inductive MAV_MISSION_RESULT where
  | MAV_MISSION_ACCEPTED
  | MAV_MISSION_ERROR
  | MAV_MISSION_UNSUPPORTED_FRAME
deriving DecidableEq

/-- Control modes of the tracker (`enum ControlMode`). -/
inductive ControlMode where
  | MANUAL
  | STOP
  | SCAN
  | SERVO_TEST
  | AUTO
  | INITIALISING
deriving DecidableEq

/-- Numeric value of a control mode. -/
def ControlMode.toNat : ControlMode → Nat
  | .MANUAL => 0
  | .STOP => 1
  | .SCAN => 2
  | .SERVO_TEST => 3
  | .AUTO => 10
  | .INITIALISING => 16

/-- State of the safety switch (`AP_HAL::Util::safety_state`). -/
inductive safety_state where
  | SAFETY_NONE
  | SAFETY_DISARMED
  | SAFETY_ARMED
deriving DecidableEq

/-- Why a mode change is requested (`enum mode_reason_t`). -/
inductive mode_reason_t where
  | MODE_REASON_INITIALISED
  | MODE_REASON_STARTUP
  | MODE_REASON_GCS_COMMAND
deriving DecidableEq

/-- Identifiers of outbound message groups (`enum ap_message`), the members
this file names. -/
inductive ap_message where
  | MSG_HEARTBEAT
  | MSG_ATTITUDE
  | MSG_LOCATION
  | MSG_LOCAL_POSITION
  | MSG_EXTENDED_STATUS1
  | MSG_EXTENDED_STATUS2
  | MSG_NAV_CONTROLLER_OUTPUT
  | MSG_GPS_RAW
  | MSG_GPS_RTK
  | MSG_GPS2_RAW
  | MSG_GPS2_RTK
  | MSG_SERVO_OUTPUT_RAW
  | MSG_RADIO_IN
  | MSG_RAW_IMU1
  | MSG_RAW_IMU2
  | MSG_RAW_IMU3
  | MSG_NEXT_WAYPOINT
  | MSG_AHRS
  | MSG_HWSTATUS
  | MSG_SIMSTATE
  | MSG_MAG_CAL_REPORT
  | MSG_MAG_CAL_PROGRESS
deriving DecidableEq

/-- Modelled from the spec: `struct Location` is declared outside `src/`.
The spec gives it a latitude and a longitude in 1e7-scaled degrees, an
altitude in centimetres and a relative-altitude flag, here a bit of
`options`. -/
structure Location where
  options : Nat
  alt : Int
  lat : Int
  lng : Int
deriving DecidableEq

/-- The relative-altitude flag of a location: is the bit
`MASK_OPTIONS_RELATIVE_ALT` set. -/
def Location.relative_alt (loc : Location) : Bool :=
  loc.options % 2 == 1

/-- Payload of COMMAND_LONG. -/
structure mavlink_command_long_t where
  param1 : F32
  param2 : F32
  param3 : F32
  param4 : F32
  param5 : F32
  param6 : F32
  param7 : F32
  command : Nat
  target_system : Nat
  target_component : Nat
  confirmation : Nat
deriving DecidableEq

/-- Payload of HEARTBEAT. -/
structure mavlink_heartbeat_t where
  custom_mode : Nat
  type : Nat
  autopilot : Nat
  base_mode : Nat
  system_status : Nat
deriving DecidableEq

/-- Payload of MISSION_WRITE_PARTIAL_LIST. -/
structure mavlink_mission_write_partial_list_t where
  start_index : Int
  end_index : Int
  target_system : Nat
  target_component : Nat
deriving DecidableEq

/-- Payload of MISSION_ITEM. -/
structure mavlink_mission_item_t where
  param1 : F32
  param2 : F32
  param3 : F32
  param4 : F32
  x : F32
  y : F32
  z : F32
  seq : Nat
  command : Nat
  target_system : Nat
  target_component : Nat
  frame : Nat
  current : Nat
  autocontinue : Nat
deriving DecidableEq

/-- A received MAVLink message: its header fields, and for each decoder the
file applies to it the packet that decoder returns (the codec is a total
function of the message bytes). -/
structure mavlink_message_t where
  msgid : Nat
  sysid : Nat
  compid : Nat
  heartbeat : mavlink_heartbeat_t
  mission_write_partial_list : mavlink_mission_write_partial_list_t
  mission_item : mavlink_mission_item_t
deriving DecidableEq

/-! ## Calls that leave the file, and the state -/

/-- A call made by this file to code outside it. -/
inductive Call where
  | send_text (severity : Nat) (text : String)
  | arm_servos
  | disarm_servos
  | servo_test_set_servo (servo_num pwm : F32)
  | set_mode (mode : ControlMode) (reason : mode_reason_t)
  | base_handle_command_long_packet (packet : mavlink_command_long_t)
  | request_datastream_position (sysid compid : Nat)
  | request_datastream_airpressure (sysid compid : Nat)
  | tracking_update_position (msg : mavlink_message_t)
  | tracking_update_pressure (msg : mavlink_message_t)
  | tracking_manual_control (msg : mavlink_message_t)
  | base_packetReceived (msg : mavlink_message_t)
  | handle_common_message (msg : mavlink_message_t)
  | send_message (id : ap_message)
  | set_home (loc : Location)
  | mission_ack_send (chan sysid compid : Nat) (result : MAV_MISSION_RESULT)
      (mission_type : Nat)
  | base_try_send_message (id : ap_message)
  | mavlink_msg_nav_controller_output_send (chan : Nat) (nav_roll nav_pitch : F32)
      (nav_bearing target_bearing wp_dist : Int) (alt_error aspd_error xtrack_error : F32)
  | mavlink_msg_sys_status_send (chan : Nat) (load voltage_battery current_battery
      battery_remaining : Int)
deriving DecidableEq

/-- What the code outside this file answers when called. -/
structure Facade where
  servo_test_set_servo : F32 → F32 → Bool
  set_mode : ControlMode → mode_reason_t → Bool
  base_handle_command_long_packet : mavlink_command_long_t → MAV_RESULT
  request_datastream_position : Nat → Nat → Bool
  request_datastream_airpressure : Nat → Nat → Bool
  base_try_send_message : ap_message → Bool
  base_handle_command_preflight_calibration_baro : MAV_RESULT
  /-- free space of the transmit buffer of a channel, `comm_get_txspace` -/
  comm_get_txspace : Nat → Nat
  /-- bytes a packet needs besides its payload, `packet_overhead` -/
  packet_overhead : Nat
  /-- the reading `hal.util->safety_switch_state()` -/
  safety_switch_state : safety_state
  battery_has_current : Bool
  battery_healthy : Bool
  battery_capacity_remaining_pct : Nat
  battery_current_amps : F32
  battery_voltage : F32
  scheduler_load_average : F32

/-- What the build fixes: the two frame macros tested with `#ifdef` (their
value when defined), the float helpers of AP_Math used by the local frames,
and what the target yields for a float to integer conversion C++ leaves
undefined. -/
structure Build where
  MAV_FRAME_LOCAL_NED : Option Nat
  MAV_FRAME_LOCAL : Option Nat
  RADIUS_OF_EARTH : F32
  ToDeg : F32 → F32
  ToRad : F32 → F32
  cosf : F32 → F32
  invalid_int32 : F32 → Int
  invalid_int16 : F32 → Int
  invalid_uint16 : F32 → Int

/-- A switch statement needs distinct case labels: a build in which the
frame switch of `handleMessage` compiles. -/
def Build.labels_distinct (b : Build) : Prop :=
  b.MAV_FRAME_LOCAL_NED ≠ some MAV_FRAME_MISSION ∧
  b.MAV_FRAME_LOCAL_NED ≠ some MAV_FRAME_GLOBAL ∧
  b.MAV_FRAME_LOCAL_NED ≠ some MAV_FRAME_GLOBAL_RELATIVE_ALT ∧
  b.MAV_FRAME_LOCAL ≠ some MAV_FRAME_MISSION ∧
  b.MAV_FRAME_LOCAL ≠ some MAV_FRAME_GLOBAL ∧
  b.MAV_FRAME_LOCAL ≠ some MAV_FRAME_GLOBAL_RELATIVE_ALT ∧
  (b.MAV_FRAME_LOCAL_NED = none ∨ b.MAV_FRAME_LOCAL_NED ≠ b.MAV_FRAME_LOCAL)

/-- The member variables this file reads and writes, and the calls made so
far, oldest first. -/
structure State where
  /-- the parameter `tracker.g.sysid_target` -/
  sysid_target : Int
  /-- the flag `tracker.target_set` -/
  target_set : Bool
  /-- the mode `tracker.control_mode` -/
  control_mode : ControlMode
  /-- the home position; `none` while no home has been set -/
  home : Option Location
  /-- the channel `chan` of this link -/
  chan : Nat
  waypoint_receiving : Bool
  waypoint_request_i : Nat
  waypoint_request_last : Nat
  /-- the parameter `g.alt_source` equals `ALT_SOURCE_BARO` -/
  alt_source_baro : Bool
  /-- the fields of `nav_status` this file reads or writes -/
  nav_pitch : F32
  nav_bearing : F32
  nav_distance : F32
  nav_alt_difference_baro : F32
  nav_alt_difference_gps : F32
  need_altitude_calibration : Bool
  calls : List Call

/-- Record a call. -/
def State.call (s : State) (c : Call) : State :=
  { s with calls := s.calls ++ [c] }

/-- The calls made between two states of one run. -/
def State.calls_since (s before : State) : List Call :=
  s.calls.drop before.calls.length

/-- A link that has just been opened on channel 0: nothing configured,
nothing received, nothing sent. -/
def State.init : State :=
  { sysid_target := 0, target_set := false, control_mode := ControlMode.INITIALISING,
    home := none, chan := 0, waypoint_receiving := false, waypoint_request_i := 0,
    waypoint_request_last := 0, alt_source_baro := true, nav_pitch := F32.zero false,
    nav_bearing := F32.zero false, nav_distance := F32.zero false,
    nav_alt_difference_baro := F32.zero false, nav_alt_difference_gps := F32.zero false,
    need_altitude_calibration := false, calls := [] }

/-- Modelled from the spec: `Tracker::set_home` is not under `src/`. The spec
has it "commit the Location as the new home". -/
def State.set_home (s : State) (temp : Location) : State :=
  { s.call (Call.set_home temp) with home := some temp }

/-! ## The functions of `GCS_Mavlink.cpp` -/

/-- Lines 77-99, `Tracker::send_extended_status1`: emit SYS_STATUS. -/
def Tracker.send_extended_status1 (b : Build) (v : Facade) (s : State) (chan : Nat) : State :=
  let measured := v.battery_has_current && v.battery_healthy
  let battery_remaining : Int :=
    if measured then
      (if v.battery_capacity_remaining_pct % 256 < 128
        then ((v.battery_capacity_remaining_pct % 256 : Nat) : Int)
        else ((v.battery_capacity_remaining_pct % 256 : Nat) : Int) - 256)
    else -1
  let battery_current : Int :=
    if measured then
      F32.toInteger (-32768) 32767 b.invalid_int16
        (F32.mul v.battery_current_amps (F32.ofInt 100))
    else -1
  s.call (Call.mavlink_msg_sys_status_send chan
    (F32.toInteger 0 65535 b.invalid_uint16 (F32.mul v.scheduler_load_average (F32.ofInt 1000)))
    (F32.toInteger 0 65535 b.invalid_uint16 (F32.mul v.battery_voltage (F32.ofInt 1000)))
    battery_current battery_remaining)

/-- Lines 101-115, `Tracker::send_nav_controller_output`: emit
NAV_CONTROLLER_OUTPUT. -/
def Tracker.send_nav_controller_output (b : Build) (s : State) (chan : Nat) : State :=
  let alt_diff := if s.alt_source_baro then s.nav_alt_difference_baro
    else s.nav_alt_difference_gps
  let dist := if F32.lt s.nav_distance (F32.ofInt UINT16_MAX) then s.nav_distance
    else F32.ofInt UINT16_MAX
  s.call (Call.mavlink_msg_nav_controller_output_send chan (F32.zero false) s.nav_pitch
    (F32.toInteger (-32768) 32767 b.invalid_int16 s.nav_bearing)
    (F32.toInteger (-32768) 32767 b.invalid_int16 s.nav_bearing)
    (F32.toInteger 0 65535 b.invalid_uint16 dist)
    alt_diff (F32.zero false) (F32.zero false))

namespace GCS_MAVLINK_Tracker

/-- Lines 18-21: the vehicle type announced in heartbeats. -/
def frame_type : Nat := MAV_TYPE_ANTENNA_TRACKER

/-- Lines 23-62: the base mode announced in heartbeats, a set of flag bits. -/
def base_mode (v : Facade) (s : State) : Nat :=
  let mode0 := MAV_MODE_FLAG_CUSTOM_MODE_ENABLED
  let mode1 :=
    match s.control_mode with
    | ControlMode.MANUAL => mode0 ||| MAV_MODE_FLAG_MANUAL_INPUT_ENABLED
    | ControlMode.STOP => mode0
    | ControlMode.SCAN =>
      mode0 ||| (MAV_MODE_FLAG_GUIDED_ENABLED ||| MAV_MODE_FLAG_STABILIZE_ENABLED)
    | ControlMode.SERVO_TEST =>
      mode0 ||| (MAV_MODE_FLAG_GUIDED_ENABLED ||| MAV_MODE_FLAG_STABILIZE_ENABLED)
    | ControlMode.AUTO =>
      mode0 ||| (MAV_MODE_FLAG_GUIDED_ENABLED ||| MAV_MODE_FLAG_STABILIZE_ENABLED)
    | ControlMode.INITIALISING => mode0
  if v.safety_switch_state ≠ safety_state.SAFETY_DISARMED then
    mode1 ||| MAV_MODE_FLAG_SAFETY_ARMED
  else mode1

/-- Lines 64-67: the custom mode announced in heartbeats. -/
def custom_mode (s : State) : Nat := s.control_mode.toNat

/-- Lines 69-75: the system status announced in heartbeats. -/
def system_status (s : State) : Nat :=
  if s.control_mode = ControlMode.INITIALISING then MAV_STATE_CALIBRATING
  else MAV_STATE_ACTIVE

/-- Modelled from the spec: the macro `CHECK_PAYLOAD_SIZE` is not under
`src/`. A message fits when the free transmit space of the channel is at
least the packet overhead plus the payload length. -/
def payload_fits (v : Facade) (s : State) (len : Nat) : Bool :=
  !decide (v.comm_get_txspace s.chan < v.packet_overhead + len)

/-- Lines 129-148: try to send a message, false if it does not fit in the
transmit buffer. -/
def try_send_message (b : Build) (v : Facade) (s : State) (id : ap_message) : Bool × State :=
  match id with
  | ap_message.MSG_NAV_CONTROLLER_OUTPUT =>
    if !payload_fits v s MAVLINK_MSG_ID_NAV_CONTROLLER_OUTPUT_LEN then (false, s)
    else (true, Tracker.send_nav_controller_output b s s.chan)
  | ap_message.MSG_EXTENDED_STATUS1 =>
    if !payload_fits v s MAVLINK_MSG_ID_SYS_STATUS_LEN then (false, s)
    else (true, Tracker.send_extended_status1 b v s s.chan)
  | _ => (v.base_try_send_message id, s.call (Call.base_try_send_message id))

/-- Lines 363-371: barometer calibration; on success the altitude
difference is zeroed at the next barometer update. -/
def _handle_command_preflight_calibration_baro (v : Facade) (s : State) : MAV_RESULT × State :=
  let ret := v.base_handle_command_preflight_calibration_baro
  if ret = MAV_RESULT.MAV_RESULT_ACCEPTED then (ret, { s with need_altitude_calibration := true })
  else (ret, s)

/-- Lines 617-632: the `set_mode` wrapper for MAVLink SET_MODE. -/
def set_mode (v : Facade) (s : State) (mode : Nat) : Bool × State :=
  let reason := mode_reason_t.MODE_REASON_GCS_COMMAND
  if mode = ControlMode.AUTO.toNat then
    let _changed := v.set_mode ControlMode.AUTO reason
    (true, s.call (Call.set_mode ControlMode.AUTO reason))
  else if mode = ControlMode.MANUAL.toNat then
    let _changed := v.set_mode ControlMode.MANUAL reason
    (true, s.call (Call.set_mode ControlMode.MANUAL reason))
  else if mode = ControlMode.SCAN.toNat then
    let _changed := v.set_mode ControlMode.SCAN reason
    (true, s.call (Call.set_mode ControlMode.SCAN reason))
  else if mode = ControlMode.SERVO_TEST.toNat then
    let _changed := v.set_mode ControlMode.SERVO_TEST reason
    (true, s.call (Call.set_mode ControlMode.SERVO_TEST reason))
  else if mode = ControlMode.STOP.toNat then
    let _changed := v.set_mode ControlMode.STOP reason
    (true, s.call (Call.set_mode ControlMode.STOP reason))
  else (false, s)

/-- Lines 325-356: lock onto the sender of the first heartbeat of a vehicle
we would track, and ask it for its position and air-pressure streams. The
two requests return a success flag that the source drops. -/
def mavlink_check_target (v : Facade) (s : State) (msg : mavlink_message_t) : State :=
  if s.target_set then s
  else
    let packet := msg.heartbeat
    if packet.type = MAV_TYPE_ANTENNA_TRACKER ∨ packet.type = MAV_TYPE_GCS ∨
        packet.type = MAV_TYPE_ONBOARD_CONTROLLER ∨ packet.type = MAV_TYPE_GIMBAL then s
    else
      let s1 := if s.sysid_target = 0 then { s with sysid_target := (msg.sysid : Int) } else s
      let _sent_position := v.request_datastream_position msg.sysid msg.compid
      let s2 := s1.call (Call.request_datastream_position msg.sysid msg.compid)
      let _sent_airpressure := v.request_datastream_airpressure msg.sysid msg.compid
      let s3 := s2.call (Call.request_datastream_airpressure msg.sysid msg.compid)
      { s3 with target_set := true }

/-- Lines 288-322: eavesdrop on heartbeats, positions and pressures of the
target, then hand the message to the base class. -/
def packetReceived (v : Facade) (s : State) (msg : mavlink_message_t) : State :=
  if s.sysid_target ≠ 0 ∧ s.sysid_target ≠ (msg.sysid : Int) then s
  else
    let s1 :=
      if msg.msgid = MAVLINK_MSG_ID_HEARTBEAT then mavlink_check_target v s msg
      else if msg.msgid = MAVLINK_MSG_ID_GLOBAL_POSITION_INT then
        s.call (Call.tracking_update_position msg)
      else if msg.msgid = MAVLINK_MSG_ID_SCALED_PRESSURE then
        s.call (Call.tracking_update_pressure msg)
      else s
    s1.call (Call.base_packetReceived msg)

/-- Lines 373-408: execute a COMMAND_LONG. -/
def handle_command_long_packet (v : Facade) (s : State) (packet : mavlink_command_long_t) :
    MAV_RESULT × State :=
  let s0 := s.call (Call.send_text MAV_SEVERITY_INFO "Command received: ")
  if packet.command = MAV_CMD_COMPONENT_ARM_DISARM then
    if packet.target_component = MAV_COMP_ID_SYSTEM_CONTROL then
      if is_equal packet.param1 (F32.ofInt 1) then
        (MAV_RESULT.MAV_RESULT_ACCEPTED, s0.call Call.arm_servos)
      else if is_zero packet.param1 then
        (MAV_RESULT.MAV_RESULT_ACCEPTED, s0.call Call.disarm_servos)
      else (MAV_RESULT.MAV_RESULT_UNSUPPORTED, s0)
    else (MAV_RESULT.MAV_RESULT_UNSUPPORTED, s0)
  else if packet.command = MAV_CMD_DO_SET_SERVO then
    let s1 := s0.call (Call.servo_test_set_servo packet.param1 packet.param2)
    if !v.servo_test_set_servo packet.param1 packet.param2 then
      (MAV_RESULT.MAV_RESULT_FAILED, s1)
    else (MAV_RESULT.MAV_RESULT_ACCEPTED, s1)
  else if packet.command = MAV_CMD_MISSION_START then
    let _changed := v.set_mode ControlMode.AUTO mode_reason_t.MODE_REASON_GCS_COMMAND
    (MAV_RESULT.MAV_RESULT_ACCEPTED,
      s0.call (Call.set_mode ControlMode.AUTO mode_reason_t.MODE_REASON_GCS_COMMAND))
  else
    (v.base_handle_command_long_packet packet,
      s0.call (Call.base_handle_command_long_packet packet))

/-- Lines 443-493, the frame switch of `handleMessage`: the result so far and
the location `tell_command` built from a mission item. The local cases exist
only in a build that defines their macro; `home` is the home position they
offset from. -/
def tell_command (b : Build) (home : Location) (packet : mavlink_mission_item_t) :
    MAV_MISSION_RESULT × Location :=
  let int32 := F32.toInt32 b.invalid_int32
  if packet.frame = MAV_FRAME_MISSION ∨ packet.frame = MAV_FRAME_GLOBAL then
    (MAV_MISSION_RESULT.MAV_MISSION_ACCEPTED,
      { lat := int32 (F32.mul (F32.ofInt 10000000) packet.x),
        lng := int32 (F32.mul (F32.ofInt 10000000) packet.y),
        alt := int32 (F32.mul packet.z (F32.ofInt 100)),
        options := 0 })
  else if b.MAV_FRAME_LOCAL_NED = some packet.frame then
    (MAV_MISSION_RESULT.MAV_MISSION_ACCEPTED,
      { lat := int32 (F32.add (F32.mul (F32.ofInt 10000000) (b.ToDeg (F32.div packet.x
          (F32.mul b.RADIUS_OF_EARTH (b.cosf (b.ToRad
            (F32.div (F32.ofInt home.lat) (F32.ofInt 10000000)))))))) (F32.ofInt home.lat)),
        lng := int32 (F32.add (F32.mul (F32.ofInt 10000000)
          (b.ToDeg (F32.div packet.y b.RADIUS_OF_EARTH))) (F32.ofInt home.lng)),
        alt := int32 (F32.mul (F32.neg packet.z) (F32.ofInt 100)),
        options := MASK_OPTIONS_RELATIVE_ALT })
  else if b.MAV_FRAME_LOCAL = some packet.frame then
    (MAV_MISSION_RESULT.MAV_MISSION_ACCEPTED,
      { lat := int32 (F32.add (F32.mul (F32.ofInt 10000000) (b.ToDeg (F32.div packet.x
          (F32.mul b.RADIUS_OF_EARTH (b.cosf (b.ToRad
            (F32.div (F32.ofInt home.lat) (F32.ofInt 10000000)))))))) (F32.ofInt home.lat)),
        lng := int32 (F32.add (F32.mul (F32.ofInt 10000000)
          (b.ToDeg (F32.div packet.y b.RADIUS_OF_EARTH))) (F32.ofInt home.lng)),
        alt := int32 (F32.mul packet.z (F32.ofInt 100)),
        options := MASK_OPTIONS_RELATIVE_ALT })
  else if packet.frame = MAV_FRAME_GLOBAL_RELATIVE_ALT then
    (MAV_MISSION_RESULT.MAV_MISSION_ACCEPTED,
      { lat := int32 (F32.mul (F32.ofInt 10000000) packet.x),
        lng := int32 (F32.mul (F32.ofInt 10000000) packet.y),
        alt := int32 (F32.mul packet.z (F32.ofInt 100)),
        options := MASK_OPTIONS_RELATIVE_ALT })
  else
    (MAV_MISSION_RESULT.MAV_MISSION_UNSUPPORTED_FRAME,
      { lat := 0, lng := 0, alt := 0, options := 0 })

/-- Lines 510-517, the label `mission_failed`: acknowledge the mission item
to the sender of the message. -/
def mission_failed (s : State) (msg : mavlink_message_t) (result : MAV_MISSION_RESULT) :
    State :=
  s.call (Call.mission_ack_send s.chan msg.sysid msg.compid result MAV_MISSION_TYPE_MISSION)

/-- Lines 410-551: handle a message addressed to the tracker. -/
def handleMessage (b : Build) (s : State) (msg : mavlink_message_t) : State :=
  if msg.msgid = MAVLINK_MSG_ID_HEARTBEAT then s
  else if msg.msgid = MAVLINK_MSG_ID_MISSION_WRITE_PARTIAL_LIST then
    let packet := msg.mission_write_partial_list
    if packet.start_index = 0 then
      State.call
        { s with waypoint_receiving := true, waypoint_request_i := 0,
                 waypoint_request_last := 0 }
        (Call.send_message ap_message.MSG_NEXT_WAYPOINT)
    else s
  else if msg.msgid = MAVLINK_MSG_ID_MISSION_ITEM then
    let packet := msg.mission_item
    let translated :=
      tell_command b (s.home.getD { lat := 0, lng := 0, alt := 0, options := 0 }) packet
    if translated.1 ≠ MAV_MISSION_RESULT.MAV_MISSION_ACCEPTED then
      mission_failed s msg translated.1
    else if !s.waypoint_receiving then
      mission_failed s msg MAV_MISSION_RESULT.MAV_MISSION_ERROR
    else
      let s1 :=
        if packet.seq = 0 then
          { (s.set_home translated.2).call
              (Call.send_text MAV_SEVERITY_INFO "New HOME received") with
            waypoint_receiving := false }
        else s
      mission_failed s1 msg translated.1
  else if msg.msgid = MAVLINK_MSG_ID_MANUAL_CONTROL then
    s.call (Call.tracking_manual_control msg)
  else if msg.msgid = MAVLINK_MSG_ID_GLOBAL_POSITION_INT then
    s.call (Call.tracking_update_position msg)
  else if msg.msgid = MAVLINK_MSG_ID_SCALED_PRESSURE then
    s.call (Call.tracking_update_pressure msg)
  else s.call (Call.handle_common_message msg)

end GCS_MAVLINK_Tracker

/-! ## Inputs used to exercise the definitions -/

/-- The float 0.5. -/
def F32.half : F32 := F32.round false 1 2

/-- The smallest positive normal float, two to the power -126 (about
1.2e-38). -/
def F32.tiny : F32 := F32.round false 1 (2 ^ 126)

/-- A facade on which every action succeeds and the base command handler
knows no command. -/
def Facade.nominal : Facade :=
  { servo_test_set_servo := fun _ _ => true
    set_mode := fun _ _ => true
    base_handle_command_long_packet := fun _ => MAV_RESULT.MAV_RESULT_UNSUPPORTED
    request_datastream_position := fun _ _ => true
    request_datastream_airpressure := fun _ _ => true
    base_try_send_message := fun _ => true
    base_handle_command_preflight_calibration_baro := MAV_RESULT.MAV_RESULT_ACCEPTED
    comm_get_txspace := fun _ => 256
    packet_overhead := 12
    safety_switch_state := safety_state.SAFETY_ARMED
    battery_has_current := true
    battery_healthy := true
    battery_capacity_remaining_pct := 90
    battery_current_amps := F32.ofInt 1
    battery_voltage := F32.ofInt 12
    scheduler_load_average := F32.half }

/-- A facade on which every action fails. -/
def Facade.failing : Facade :=
  { servo_test_set_servo := fun _ _ => false
    set_mode := fun _ _ => false
    base_handle_command_long_packet := fun _ => MAV_RESULT.MAV_RESULT_FAILED
    request_datastream_position := fun _ _ => false
    request_datastream_airpressure := fun _ _ => false
    base_try_send_message := fun _ => false
    base_handle_command_preflight_calibration_baro := MAV_RESULT.MAV_RESULT_FAILED
    comm_get_txspace := fun _ => 0
    packet_overhead := 12
    safety_switch_state := safety_state.SAFETY_DISARMED
    battery_has_current := false
    battery_healthy := false
    battery_capacity_remaining_pct := 0
    battery_current_amps := F32.zero false
    battery_voltage := F32.zero false
    scheduler_load_average := F32.zero false }

/-- A build against the MAVLink headers, where the frame names are
enumerators and no macro: the local cases are not compiled. -/
def Build.standard : Build :=
  { MAV_FRAME_LOCAL_NED := none
    MAV_FRAME_LOCAL := none
    RADIUS_OF_EARTH := F32.ofInt 6378100
    ToDeg := fun x => x
    ToRad := fun x => x
    cosf := fun x => x
    invalid_int32 := fun _ => 0
    invalid_int16 := fun _ => 0
    invalid_uint16 := fun _ => 0 }

/-- A COMMAND_LONG packet with the given command, target component and first
two parameters; every other field is zero. -/
def command_long (command target_component : Nat) (param1 param2 : F32) :
    mavlink_command_long_t :=
  { param1 := param1, param2 := param2, param3 := F32.zero false, param4 := F32.zero false,
    param5 := F32.zero false, param6 := F32.zero false, param7 := F32.zero false,
    command := command, target_system := 0, target_component := target_component,
    confirmation := 0 }

/-- The vehicle types that are not trackable targets: antenna tracker,
ground control station, onboard controller and gimbal. -/
def excluded_type (type : Nat) : Bool :=
  type == MAV_TYPE_ANTENNA_TRACKER || type == MAV_TYPE_GCS ||
    type == MAV_TYPE_ONBOARD_CONTROLLER || type == MAV_TYPE_GIMBAL

/-- One call of `mavlink_check_target` per heartbeat, in order of arrival. -/
def heartbeats (v : Facade) (s : State) (msgs : List mavlink_message_t) : State :=
  msgs.foldl (GCS_MAVLINK_Tracker.mavlink_check_target v) s

/-- One call of `packetReceived` per message, in order of arrival. -/
def packets (v : Facade) (s : State) (msgs : List mavlink_message_t) : State :=
  msgs.foldl (GCS_MAVLINK_Tracker.packetReceived v) s

/-- A mission item with the given frame, sequence index and coordinates;
every other field is zero. -/
def mission_item (frame seq : Nat) (x y z : F32) : mavlink_mission_item_t :=
  { param1 := F32.zero false, param2 := F32.zero false, param3 := F32.zero false,
    param4 := F32.zero false, x := x, y := y, z := z, seq := seq, command := 0,
    target_system := 0, target_component := 0, frame := frame, current := 0,
    autocontinue := 0 }

/-- A message with the given id and sender, whose payload decodes to zeros. -/
def message (msgid sysid compid : Nat) : mavlink_message_t :=
  { msgid := msgid, sysid := sysid, compid := compid,
    heartbeat := { custom_mode := 0, type := 0, autopilot := 0, base_mode := 0,
                   system_status := 0 },
    mission_write_partial_list := { start_index := 0, end_index := 0, target_system := 0,
                                    target_component := 0 },
    mission_item := mission_item 0 0 (F32.zero false) (F32.zero false) (F32.zero false) }

/-- A heartbeat of a vehicle of the given type. -/
def heartbeat_message (sysid compid type : Nat) : mavlink_message_t :=
  { message MAVLINK_MSG_ID_HEARTBEAT sysid compid with
    heartbeat := { custom_mode := 0, type := type, autopilot := 0, base_mode := 0,
                   system_status := 0 } }

/-- A MISSION_WRITE_PARTIAL_LIST message with the given start index. -/
def write_partial_list_message (sysid compid : Nat) (start_index : Int) : mavlink_message_t :=
  { message MAVLINK_MSG_ID_MISSION_WRITE_PARTIAL_LIST sysid compid with
    mission_write_partial_list := { start_index := start_index, end_index := 0,
                                    target_system := 0, target_component := 0 } }

/-- A MISSION_ITEM message carrying the given item. -/
def mission_item_message (sysid compid : Nat) (item : mavlink_mission_item_t) :
    mavlink_message_t :=
  { message MAVLINK_MSG_ID_MISSION_ITEM sysid compid with mission_item := item }

/-- The frames the frame switch of `handleMessage` has a case for: GLOBAL,
MISSION, GLOBAL_RELATIVE_ALT, and the local frames whose macro the build
defines. -/
def supported_frame (b : Build) (frame : Nat) : Bool :=
  frame == MAV_FRAME_GLOBAL || frame == MAV_FRAME_MISSION ||
    frame == MAV_FRAME_GLOBAL_RELATIVE_ALT ||
    b.MAV_FRAME_LOCAL_NED == some frame || b.MAV_FRAME_LOCAL == some frame

/-- Is this call a call of `set_home`. -/
def Call.is_set_home : Call → Bool
  | Call.set_home _ => true
  | _ => false

/-- Is this call the sending of a MISSION_ACK. -/
def Call.is_mission_ack : Call → Bool
  | Call.mission_ack_send _ _ _ _ _ => true
  | _ => false

/-- Is this call the sending of a telemetry message by this file. -/
def Call.is_telemetry : Call → Bool
  | Call.mavlink_msg_nav_controller_output_send _ _ _ _ _ _ _ _ _ => true
  | Call.mavlink_msg_sys_status_send _ _ _ _ _ => true
  | _ => false

/-- A link on which an upload session is open and no home is set. -/
def State.receiving : State :=
  { State.init with waypoint_receiving := true }

/-- The float nearest to 180 / pi, the factor of `ToDeg`. -/
def RAD_TO_DEG : F32 := F32.round false 5729577951308232 100000000000000

/-- The float nearest to pi / 180, the factor of `ToRad`. -/
def DEG_TO_RAD : F32 := F32.round false 17453292519943295 1000000000000000000

/-- A build that defines the macro `MAV_FRAME_LOCAL_NED` as 1, the value of
the MAVLink enumerator of that name, so that the local-NED case is compiled,
with the given cosine. -/
def Build.local_ned (cosf : F32 → F32) : Build :=
  { Build.standard with
    MAV_FRAME_LOCAL_NED := some 1
    ToDeg := fun x => F32.mul x RAD_TO_DEG
    ToRad := fun x => F32.mul x DEG_TO_RAD
    cosf := cosf }

/-- A cosine for examples at 60 degrees: it returns 0.49999997 (bit pattern
0x3EFFFFFF), the correctly rounded cosine of the float 60 * `DEG_TO_RAD`. -/
def cosf_at_60_degrees : F32 → F32 := fun _ => ⟨false, 125, 8388607⟩

/-- A cosine that is 1.0 everywhere, which cancels the cosine factor. -/
def cosf_one : F32 → F32 := fun _ => F32.ofInt 1

/-- A link with an open upload session whose home is the given location. -/
def State.receiving_at (home : Location) : State :=
  { State.init with waypoint_receiving := true, home := some home }

/-- A home at 60 degrees north on the prime meridian, at altitude 0. -/
def home_60_north : Location :=
  { lat := 600000000, lng := 0, alt := 0, options := 0 }

/-- Value of the MAVLink enumerator `MAV_FRAME_LOCAL_NED`. It is an
enumerator and no preprocessor name, so `#ifdef MAV_FRAME_LOCAL_NED` does not
see it: in a build against the MAVLink headers `Build.MAV_FRAME_LOCAL_NED` is
`none`. -/
def MAV_FRAME_LOCAL_NED : Nat := 1

set_option maxRecDepth 16384

/-! ## Bookkeeping of calls -/

theorem calls_since_of_append (s t : State) (l : List Call) (h : t.calls = s.calls ++ l) :
    t.calls_since s = l := by
  simp [State.calls_since, h]

theorem calls_since_self (s : State) : s.calls_since s = [] := by
  simp [State.calls_since]

theorem F32.eq_zero_of_isZero (x : F32) (h : x.isZero = true) : x = F32.zero x.sign := by
  obtain ⟨sg, ex, fr⟩ := x
  simp only [F32.isZero, Bool.and_eq_true, beq_iff_eq] at h
  simp only [F32.zero, F32.mk.injEq, true_and]
  exact ⟨Fin.ext h.1, Fin.ext h.2⟩

theorem is_equal_one_one : is_equal (F32.ofInt 1) (F32.ofInt 1) = true := by decide

theorem is_zero_of_isZero (x : F32) (h : x.isZero = true) : is_zero x = true := by
  rw [F32.eq_zero_of_isZero x h]
  cases x.sign <;> decide

theorem is_equal_one_of_isZero (x : F32) (h : x.isZero = true) :
    is_equal x (F32.ofInt 1) = false := by
  rw [F32.eq_zero_of_isZero x h]
  cases x.sign <;> decide

/-! ## Command dispatch -/

open GCS_MAVLINK_Tracker

/-- C1: an ARM_DISARM command addressed to the system-control component is
accepted with exactly one call of `arm_servos` and none of `disarm_servos`
when param1 equals 1.0, and with exactly one call of `disarm_servos` and none
of `arm_servos` when param1 equals 0.0 (plus or minus zero). -/
theorem handle_command_long_packet_arm_disarm (v : Facade) (s : State)
    (packet : mavlink_command_long_t)
    (hcommand : packet.command = MAV_CMD_COMPONENT_ARM_DISARM)
    (hcomponent : packet.target_component = MAV_COMP_ID_SYSTEM_CONTROL) :
    (packet.param1 = F32.ofInt 1 →
      (handle_command_long_packet v s packet).1 = MAV_RESULT.MAV_RESULT_ACCEPTED ∧
      (handle_command_long_packet v s packet).2.calls_since s =
        [Call.send_text MAV_SEVERITY_INFO "Command received: ", Call.arm_servos] ∧
      ((handle_command_long_packet v s packet).2.calls_since s).count Call.arm_servos = 1 ∧
      ((handle_command_long_packet v s packet).2.calls_since s).count Call.disarm_servos = 0) ∧
    (packet.param1.isZero = true →
      (handle_command_long_packet v s packet).1 = MAV_RESULT.MAV_RESULT_ACCEPTED ∧
      (handle_command_long_packet v s packet).2.calls_since s =
        [Call.send_text MAV_SEVERITY_INFO "Command received: ", Call.disarm_servos] ∧
      ((handle_command_long_packet v s packet).2.calls_since s).count Call.disarm_servos = 1 ∧
      ((handle_command_long_packet v s packet).2.calls_since s).count Call.arm_servos = 0) := by
  constructor
  · intro h1
    have hcalls : (handle_command_long_packet v s packet).2.calls_since s =
        [Call.send_text MAV_SEVERITY_INFO "Command received: ", Call.arm_servos] := by
      apply calls_since_of_append
      simp [handle_command_long_packet, hcommand, hcomponent, h1, is_equal_one_one, State.call]
    refine ⟨?_, hcalls, ?_, ?_⟩
    · simp [handle_command_long_packet, hcommand, hcomponent, h1, is_equal_one_one]
    · rw [hcalls]; decide
    · rw [hcalls]; decide
  · intro h0
    have hcalls : (handle_command_long_packet v s packet).2.calls_since s =
        [Call.send_text MAV_SEVERITY_INFO "Command received: ", Call.disarm_servos] := by
      apply calls_since_of_append
      simp [handle_command_long_packet, hcommand, hcomponent, is_equal_one_of_isZero _ h0,
        is_zero_of_isZero _ h0, State.call]
    refine ⟨?_, hcalls, ?_, ?_⟩
    · simp [handle_command_long_packet, hcommand, hcomponent, is_equal_one_of_isZero _ h0,
        is_zero_of_isZero _ h0]
    · rw [hcalls]; decide
    · rw [hcalls]; decide

/-- The arm command with param1 = 1.0 and the disarm command with
param1 = 0.0, on a fresh link. -/
theorem handle_command_long_packet_arm_disarm_witness :
    ((command_long MAV_CMD_COMPONENT_ARM_DISARM MAV_COMP_ID_SYSTEM_CONTROL (F32.ofInt 1)
        (F32.zero false)).param1 = F32.ofInt 1 ∧
      (handle_command_long_packet Facade.nominal State.init
        (command_long MAV_CMD_COMPONENT_ARM_DISARM MAV_COMP_ID_SYSTEM_CONTROL (F32.ofInt 1)
          (F32.zero false))).1 = MAV_RESULT.MAV_RESULT_ACCEPTED) ∧
    ((command_long MAV_CMD_COMPONENT_ARM_DISARM MAV_COMP_ID_SYSTEM_CONTROL (F32.zero false)
        (F32.zero false)).param1.isZero = true ∧
      (handle_command_long_packet Facade.nominal State.init
        (command_long MAV_CMD_COMPONENT_ARM_DISARM MAV_COMP_ID_SYSTEM_CONTROL (F32.zero false)
          (F32.zero false))).1 = MAV_RESULT.MAV_RESULT_ACCEPTED) :=
  ⟨⟨rfl, ((handle_command_long_packet_arm_disarm Facade.nominal State.init
      (command_long MAV_CMD_COMPONENT_ARM_DISARM MAV_COMP_ID_SYSTEM_CONTROL (F32.ofInt 1)
        (F32.zero false)) rfl rfl).1 rfl).1⟩,
   ⟨rfl, ((handle_command_long_packet_arm_disarm Facade.nominal State.init
      (command_long MAV_CMD_COMPONENT_ARM_DISARM MAV_COMP_ID_SYSTEM_CONTROL (F32.zero false)
        (F32.zero false)) rfl rfl).2 rfl).1⟩⟩

/-- Both epsilon tests fail on 0.5; the float 2 ^ -126 is neither 1.0 nor 0.0
and passes the test against zero. -/
theorem epsilon_tests_examples :
    is_equal F32.half (F32.ofInt 1) = false ∧ is_zero F32.half = false ∧
    F32.tiny ≠ F32.ofInt 1 ∧ F32.tiny.isZero = false ∧
    is_equal F32.tiny (F32.ofInt 1) = false ∧ is_zero F32.tiny = true := by
  decide

/-- C2, as stated, fails: param1 = 2 ^ -126 (bit pattern 0x00800000) is
neither 1.0 nor 0.0, yet the command addressed to the system-control
component is accepted and `disarm_servos` is called. -/
theorem handle_command_long_packet_arm_disarm_tiny_accepted :
    (command_long MAV_CMD_COMPONENT_ARM_DISARM MAV_COMP_ID_SYSTEM_CONTROL F32.tiny
        (F32.zero false)).param1 ≠ F32.ofInt 1 ∧
    (command_long MAV_CMD_COMPONENT_ARM_DISARM MAV_COMP_ID_SYSTEM_CONTROL F32.tiny
        (F32.zero false)).param1.isZero = false ∧
    (handle_command_long_packet Facade.nominal State.init
        (command_long MAV_CMD_COMPONENT_ARM_DISARM MAV_COMP_ID_SYSTEM_CONTROL F32.tiny
          (F32.zero false))).1 = MAV_RESULT.MAV_RESULT_ACCEPTED ∧
    (handle_command_long_packet Facade.nominal State.init
        (command_long MAV_CMD_COMPONENT_ARM_DISARM MAV_COMP_ID_SYSTEM_CONTROL F32.tiny
          (F32.zero false))).2.calls =
      [Call.send_text MAV_SEVERITY_INFO "Command received: ", Call.disarm_servos] ∧
    F32.tiny = ⟨false, 1, 0⟩ := by
  decide

/-- C2 (amended): an ARM_DISARM command is UNSUPPORTED, with neither
`arm_servos` nor `disarm_servos` called, whenever the target component is not
the system-control component (for every param1), or it is and param1 fails
both epsilon tests (it is within `FLT_EPSILON` neither of 1.0 nor of 0.0), as
0.5 does; the result is ACCEPTED if and only if the component matches and
param1 passes one of the two tests. -/
theorem handle_command_long_packet_arm_disarm_unsupported (v : Facade) (s : State)
    (packet : mavlink_command_long_t)
    (hcommand : packet.command = MAV_CMD_COMPONENT_ARM_DISARM) :
    ((packet.target_component ≠ MAV_COMP_ID_SYSTEM_CONTROL ∨
        (is_equal packet.param1 (F32.ofInt 1) = false ∧ is_zero packet.param1 = false)) →
      (handle_command_long_packet v s packet).1 = MAV_RESULT.MAV_RESULT_UNSUPPORTED ∧
      (handle_command_long_packet v s packet).2.calls_since s =
        [Call.send_text MAV_SEVERITY_INFO "Command received: "] ∧
      ((handle_command_long_packet v s packet).2.calls_since s).count Call.arm_servos = 0 ∧
      ((handle_command_long_packet v s packet).2.calls_since s).count Call.disarm_servos = 0) ∧
    ((handle_command_long_packet v s packet).1 = MAV_RESULT.MAV_RESULT_ACCEPTED ↔
      (packet.target_component = MAV_COMP_ID_SYSTEM_CONTROL ∧
        (is_equal packet.param1 (F32.ofInt 1) = true ∨ is_zero packet.param1 = true))) ∧
    (is_equal F32.half (F32.ofInt 1) = false ∧ is_zero F32.half = false) := by
  refine ⟨?_, ?_, epsilon_tests_examples.1, epsilon_tests_examples.2.1⟩
  · intro h
    have hcalls : (handle_command_long_packet v s packet).2.calls_since s =
        [Call.send_text MAV_SEVERITY_INFO "Command received: "] := by
      apply calls_since_of_append
      rcases h with h | ⟨h1, h0⟩
      · simp [handle_command_long_packet, hcommand, h, State.call]
      · by_cases hc : packet.target_component = MAV_COMP_ID_SYSTEM_CONTROL <;>
          simp [handle_command_long_packet, hcommand, hc, h1, h0, State.call]
    refine ⟨?_, hcalls, ?_, ?_⟩
    · rcases h with h | ⟨h1, h0⟩
      · simp [handle_command_long_packet, hcommand, h]
      · by_cases hc : packet.target_component = MAV_COMP_ID_SYSTEM_CONTROL <;>
          simp [handle_command_long_packet, hcommand, hc, h1, h0]
    · rw [hcalls]; decide
    · rw [hcalls]; decide
  · by_cases hc : packet.target_component = MAV_COMP_ID_SYSTEM_CONTROL
    · by_cases h1 : is_equal packet.param1 (F32.ofInt 1) = true
      · simp [handle_command_long_packet, hcommand, hc, h1]
      · by_cases h0 : is_zero packet.param1 = true
        · simp [handle_command_long_packet, hcommand, hc, h1, h0]
        · simp [handle_command_long_packet, hcommand, hc, h1, h0]
    · simp [handle_command_long_packet, hcommand, hc]

/-- The command with param1 = 0.5 addressed to the system-control component,
on a fresh link. -/
theorem handle_command_long_packet_arm_disarm_unsupported_witness :
    (command_long MAV_CMD_COMPONENT_ARM_DISARM MAV_COMP_ID_SYSTEM_CONTROL F32.half
        (F32.zero false)).command = MAV_CMD_COMPONENT_ARM_DISARM ∧
    (handle_command_long_packet Facade.nominal State.init
        (command_long MAV_CMD_COMPONENT_ARM_DISARM MAV_COMP_ID_SYSTEM_CONTROL F32.half
          (F32.zero false))).1 = MAV_RESULT.MAV_RESULT_UNSUPPORTED :=
  ⟨rfl, ((handle_command_long_packet_arm_disarm_unsupported Facade.nominal State.init
    (command_long MAV_CMD_COMPONENT_ARM_DISARM MAV_COMP_ID_SYSTEM_CONTROL F32.half
      (F32.zero false)) rfl).1
    (Or.inr ⟨epsilon_tests_examples.1, epsilon_tests_examples.2.1⟩)).1⟩

/-- C3: a DO_SET_SERVO command calls `servo_test_set_servo` exactly once, with
(param1, param2); the result is ACCEPTED if and only if that call returns
true, FAILED otherwise, and never anything else. -/
theorem handle_command_long_packet_do_set_servo (v : Facade) (s : State)
    (packet : mavlink_command_long_t)
    (hcommand : packet.command = MAV_CMD_DO_SET_SERVO) :
    (handle_command_long_packet v s packet).2.calls_since s =
      [Call.send_text MAV_SEVERITY_INFO "Command received: ",
       Call.servo_test_set_servo packet.param1 packet.param2] ∧
    ((handle_command_long_packet v s packet).1 = MAV_RESULT.MAV_RESULT_ACCEPTED ↔
      v.servo_test_set_servo packet.param1 packet.param2 = true) ∧
    ((handle_command_long_packet v s packet).1 = MAV_RESULT.MAV_RESULT_FAILED ↔
      v.servo_test_set_servo packet.param1 packet.param2 = false) ∧
    ((handle_command_long_packet v s packet).1 = MAV_RESULT.MAV_RESULT_ACCEPTED ∨
      (handle_command_long_packet v s packet).1 = MAV_RESULT.MAV_RESULT_FAILED) := by
  have hne : MAV_CMD_DO_SET_SERVO ≠ MAV_CMD_COMPONENT_ARM_DISARM := by decide
  refine ⟨?_, ?_, ?_, ?_⟩
  · apply calls_since_of_append
    cases hr : v.servo_test_set_servo packet.param1 packet.param2 <;>
      simp [handle_command_long_packet, hcommand, hne, hr, State.call]
  all_goals
    cases hr : v.servo_test_set_servo packet.param1 packet.param2 <;>
      simp [handle_command_long_packet, hcommand, hne, hr]

/-- A servo test refused by the vehicle is answered FAILED. -/
theorem handle_command_long_packet_do_set_servo_witness :
    (command_long MAV_CMD_DO_SET_SERVO 0 (F32.ofInt 1) (F32.ofInt 1500)).command =
      MAV_CMD_DO_SET_SERVO ∧
    ((handle_command_long_packet Facade.failing State.init
        (command_long MAV_CMD_DO_SET_SERVO 0 (F32.ofInt 1) (F32.ofInt 1500))).1 =
          MAV_RESULT.MAV_RESULT_FAILED ↔
      Facade.failing.servo_test_set_servo
        (command_long MAV_CMD_DO_SET_SERVO 0 (F32.ofInt 1) (F32.ofInt 1500)).param1
        (command_long MAV_CMD_DO_SET_SERVO 0 (F32.ofInt 1) (F32.ofInt 1500)).param2 = false) :=
  ⟨rfl, (handle_command_long_packet_do_set_servo Facade.failing State.init
    (command_long MAV_CMD_DO_SET_SERVO 0 (F32.ofInt 1) (F32.ofInt 1500)) rfl).2.2.1⟩

/-- C4: a MISSION_START command is ACCEPTED for every packet, every state and
every facade (also one whose `set_mode` fails), and asks the vehicle for mode
AUTO with reason GCS_COMMAND exactly once. -/
theorem handle_command_long_packet_mission_start (v : Facade) (s : State)
    (packet : mavlink_command_long_t)
    (hcommand : packet.command = MAV_CMD_MISSION_START) :
    (handle_command_long_packet v s packet).1 = MAV_RESULT.MAV_RESULT_ACCEPTED ∧
    (handle_command_long_packet v s packet).2.calls_since s =
      [Call.send_text MAV_SEVERITY_INFO "Command received: ",
       Call.set_mode ControlMode.AUTO mode_reason_t.MODE_REASON_GCS_COMMAND] ∧
    ((handle_command_long_packet v s packet).2.calls_since s).count
      (Call.set_mode ControlMode.AUTO mode_reason_t.MODE_REASON_GCS_COMMAND) = 1 ∧
    (∀ c ∈ (handle_command_long_packet v s packet).2.calls_since s,
      ∀ mode reason, c = Call.set_mode mode reason →
        mode = ControlMode.AUTO ∧ reason = mode_reason_t.MODE_REASON_GCS_COMMAND) := by
  have hne1 : MAV_CMD_MISSION_START ≠ MAV_CMD_COMPONENT_ARM_DISARM := by decide
  have hne2 : MAV_CMD_MISSION_START ≠ MAV_CMD_DO_SET_SERVO := by decide
  have hcalls : (handle_command_long_packet v s packet).2.calls_since s =
      [Call.send_text MAV_SEVERITY_INFO "Command received: ",
       Call.set_mode ControlMode.AUTO mode_reason_t.MODE_REASON_GCS_COMMAND] := by
    apply calls_since_of_append
    simp [handle_command_long_packet, hcommand, hne1, hne2, State.call]
  refine ⟨?_, hcalls, ?_, ?_⟩
  · simp [handle_command_long_packet, hcommand, hne1, hne2]
  · rw [hcalls]; decide
  · rw [hcalls]
    intro c hc mode reason hcm
    simp only [List.mem_cons, List.mem_singleton, List.not_mem_nil, or_false] at hc
    rcases hc with hc | hc
    · rw [hc] at hcm; cases hcm
    · rw [hc] at hcm; cases hcm; exact ⟨rfl, rfl⟩

/-- Mission start on a vehicle that refuses every mode change. -/
theorem handle_command_long_packet_mission_start_witness :
    (command_long MAV_CMD_MISSION_START 0 (F32.zero false) (F32.zero false)).command =
      MAV_CMD_MISSION_START ∧
    Facade.failing.set_mode ControlMode.AUTO mode_reason_t.MODE_REASON_GCS_COMMAND = false ∧
    (handle_command_long_packet Facade.failing State.init
      (command_long MAV_CMD_MISSION_START 0 (F32.zero false) (F32.zero false))).1 =
        MAV_RESULT.MAV_RESULT_ACCEPTED :=
  ⟨rfl, rfl, (handle_command_long_packet_mission_start Facade.failing State.init
    (command_long MAV_CMD_MISSION_START 0 (F32.zero false) (F32.zero false)) rfl).1⟩

/-- C5: for a command that is none of ARM_DISARM, DO_SET_SERVO and
MISSION_START, the result is that of the base class handler on the same
packet, and the handler itself calls none of `arm_servos`, `disarm_servos`,
`servo_test_set_servo` and `set_mode`. -/
theorem handle_command_long_packet_default (v : Facade) (s : State)
    (packet : mavlink_command_long_t)
    (harm : packet.command ≠ MAV_CMD_COMPONENT_ARM_DISARM)
    (hservo : packet.command ≠ MAV_CMD_DO_SET_SERVO)
    (hstart : packet.command ≠ MAV_CMD_MISSION_START) :
    (handle_command_long_packet v s packet).1 = v.base_handle_command_long_packet packet ∧
    (handle_command_long_packet v s packet).2.calls_since s =
      [Call.send_text MAV_SEVERITY_INFO "Command received: ",
       Call.base_handle_command_long_packet packet] ∧
    (∀ c ∈ (handle_command_long_packet v s packet).2.calls_since s,
      c ≠ Call.arm_servos ∧ c ≠ Call.disarm_servos ∧
      (∀ servo_num pwm, c ≠ Call.servo_test_set_servo servo_num pwm) ∧
      (∀ mode reason, c ≠ Call.set_mode mode reason)) := by
  have hcalls : (handle_command_long_packet v s packet).2.calls_since s =
      [Call.send_text MAV_SEVERITY_INFO "Command received: ",
       Call.base_handle_command_long_packet packet] := by
    apply calls_since_of_append
    simp [handle_command_long_packet, harm, hservo, hstart, State.call]
  refine ⟨?_, hcalls, ?_⟩
  · simp [handle_command_long_packet, harm, hservo, hstart]
  · rw [hcalls]
    intro c hc
    simp only [List.mem_cons, List.mem_singleton, List.not_mem_nil, or_false] at hc
    rcases hc with hc | hc <;> subst hc <;>
      exact ⟨by simp, by simp, fun _ _ => by simp, fun _ _ => by simp⟩

/-- A command the tracker has no case for (id 246, reboot) goes to the base
class. -/
theorem handle_command_long_packet_default_witness :
    (command_long 246 0 (F32.zero false) (F32.zero false)).command ≠
      MAV_CMD_COMPONENT_ARM_DISARM ∧
    (command_long 246 0 (F32.zero false) (F32.zero false)).command ≠ MAV_CMD_DO_SET_SERVO ∧
    (command_long 246 0 (F32.zero false) (F32.zero false)).command ≠ MAV_CMD_MISSION_START ∧
    (handle_command_long_packet Facade.failing State.init
      (command_long 246 0 (F32.zero false) (F32.zero false))).1 =
        Facade.failing.base_handle_command_long_packet
          (command_long 246 0 (F32.zero false) (F32.zero false)) :=
  ⟨by decide, by decide, by decide,
    (handle_command_long_packet_default Facade.failing State.init
      (command_long 246 0 (F32.zero false) (F32.zero false))
      (by decide) (by decide) (by decide)).1⟩

/-! ## Target lock -/

theorem mavlink_check_target_locked (v : Facade) (s : State) (msg : mavlink_message_t)
    (h : s.target_set = true) : mavlink_check_target v s msg = s := by
  simp [mavlink_check_target, h]

theorem mavlink_check_target_excluded (v : Facade) (s : State) (msg : mavlink_message_t)
    (h : excluded_type msg.heartbeat.type = true) : mavlink_check_target v s msg = s := by
  simp only [excluded_type, Bool.or_eq_true, beq_iff_eq] at h
  have h4 : msg.heartbeat.type = MAV_TYPE_ANTENNA_TRACKER ∨ msg.heartbeat.type = MAV_TYPE_GCS ∨
      msg.heartbeat.type = MAV_TYPE_ONBOARD_CONTROLLER ∨ msg.heartbeat.type = MAV_TYPE_GIMBAL := by
    tauto
  simp [mavlink_check_target, h4]

theorem mavlink_check_target_lock (v : Facade) (s : State) (msg : mavlink_message_t)
    (hunlocked : s.target_set = false) (htype : excluded_type msg.heartbeat.type = false) :
    mavlink_check_target v s msg =
      { s with
        sysid_target := if s.sysid_target = 0 then (msg.sysid : Int) else s.sysid_target
        target_set := true
        calls := s.calls ++ [Call.request_datastream_position msg.sysid msg.compid,
                             Call.request_datastream_airpressure msg.sysid msg.compid] } := by
  simp only [excluded_type, Bool.or_eq_false_iff, beq_eq_false_iff_ne] at htype
  have h4 : ¬ (msg.heartbeat.type = MAV_TYPE_ANTENNA_TRACKER ∨ msg.heartbeat.type = MAV_TYPE_GCS ∨
      msg.heartbeat.type = MAV_TYPE_ONBOARD_CONTROLLER ∨ msg.heartbeat.type = MAV_TYPE_GIMBAL) := by
    tauto
  by_cases h0 : s.sysid_target = 0 <;>
    simp [mavlink_check_target, hunlocked, h4, h0, State.call]

theorem heartbeats_locked (v : Facade) (s : State) (msgs : List mavlink_message_t)
    (h : s.target_set = true) : heartbeats v s msgs = s := by
  induction msgs with
  | nil => rfl
  | cons m ms ih =>
    simp only [heartbeats, List.foldl_cons] at ih ⊢
    rw [mavlink_check_target_locked v s m h]
    exact ih

theorem heartbeats_excluded (v : Facade) (s : State) (msgs : List mavlink_message_t)
    (h : ∀ m ∈ msgs, excluded_type m.heartbeat.type = true) : heartbeats v s msgs = s := by
  induction msgs with
  | nil => rfl
  | cons m ms ih =>
    simp only [heartbeats, List.foldl_cons] at ih ⊢
    rw [mavlink_check_target_excluded v s m (h m (List.mem_cons_self _ _))]
    exact ih (fun x hx => h x (List.mem_cons_of_mem _ hx))

theorem heartbeats_append (v : Facade) (s : State) (l1 l2 : List mavlink_message_t) :
    heartbeats v s (l1 ++ l2) = heartbeats v (heartbeats v s l1) l2 := by
  simp [heartbeats, List.foldl_append]

theorem first_trackable_split (msgs : List mavlink_message_t) :
    (∀ m ∈ msgs, excluded_type m.heartbeat.type = true) ∨
    ∃ (before : List mavlink_message_t) (first : mavlink_message_t)
        (after : List mavlink_message_t),
      msgs = before ++ first :: after ∧
      (∀ m ∈ before, excluded_type m.heartbeat.type = true) ∧
      excluded_type first.heartbeat.type = false := by
  induction msgs with
  | nil => exact Or.inl (fun m hm => by simp at hm)
  | cons m ms ih =>
    cases hm : excluded_type m.heartbeat.type
    · exact Or.inr ⟨[], m, ms, rfl, fun x hx => by simp at hx, hm⟩
    · rcases ih with hall | ⟨before, first, after, hsplit, hbefore, hfirst⟩
      · left
        intro x hx
        rcases List.mem_cons.mp hx with hx | hx
        · rw [hx]; exact hm
        · exact hall x hx
      · right
        refine ⟨m :: before, first, after, by rw [hsplit]; rfl, ?_, hfirst⟩
        intro x hx
        rcases List.mem_cons.mp hx with hx | hx
        · rw [hx]; exact hm
        · exact hbefore x hx

/-- C6: starting UNLOCKED, a sequence of heartbeats that are all of an
excluded type changes nothing; otherwise the whole sequence does exactly what
the first heartbeat of a non-excluded type does alone: it locks and issues
the two stream requests. Every sequence is of one of these two kinds. A
heartbeat of an excluded type, and any heartbeat received once locked, leaves
the state (so `target_set`, `sysid_target` and the calls) as it was, and a
locked link stays locked. -/
theorem mavlink_check_target_first_trackable (v : Facade) (s : State)
    (hunlocked : s.target_set = false) :
    (∀ msgs : List mavlink_message_t,
      (∀ m ∈ msgs, excluded_type m.heartbeat.type = true) ∨
      ∃ (before : List mavlink_message_t) (first : mavlink_message_t)
          (after : List mavlink_message_t),
        msgs = before ++ first :: after ∧
        (∀ m ∈ before, excluded_type m.heartbeat.type = true) ∧
        excluded_type first.heartbeat.type = false) ∧
    (∀ msgs : List mavlink_message_t,
      (∀ m ∈ msgs, excluded_type m.heartbeat.type = true) → heartbeats v s msgs = s) ∧
    (∀ (before : List mavlink_message_t) (first : mavlink_message_t)
        (after : List mavlink_message_t),
      (∀ m ∈ before, excluded_type m.heartbeat.type = true) →
      excluded_type first.heartbeat.type = false →
        heartbeats v s (before ++ first :: after) = mavlink_check_target v s first ∧
        (heartbeats v s (before ++ first :: after)).calls_since s =
          [Call.request_datastream_position first.sysid first.compid,
           Call.request_datastream_airpressure first.sysid first.compid] ∧
        (heartbeats v s (before ++ first :: after)).target_set = true) ∧
    (∀ (t : State) (m : mavlink_message_t),
      (t.target_set = true ∨ excluded_type m.heartbeat.type = true) →
        mavlink_check_target v t m = t) ∧
    (∀ (t : State) (msgs : List mavlink_message_t),
      t.target_set = true → (heartbeats v t msgs).target_set = true) := by
  refine ⟨first_trackable_split, fun msgs h => heartbeats_excluded v s msgs h, ?_, ?_, ?_⟩
  · intro before first after hbefore hfirst
    have hrun : heartbeats v s (before ++ first :: after) = mavlink_check_target v s first := by
      rw [heartbeats_append, heartbeats_excluded v s before hbefore]
      show heartbeats v (mavlink_check_target v s first) after = _
      apply heartbeats_locked
      rw [mavlink_check_target_lock v s first hunlocked hfirst]
    refine ⟨hrun, ?_, ?_⟩
    · rw [hrun]
      apply calls_since_of_append
      rw [mavlink_check_target_lock v s first hunlocked hfirst]
    · rw [hrun, mavlink_check_target_lock v s first hunlocked hfirst]
  · intro t m h
    rcases h with h | h
    · exact mavlink_check_target_locked v t m h
    · exact mavlink_check_target_excluded v t m h
  · intro t msgs h
    rw [heartbeats_locked v t msgs h]
    exact h

/-- Heartbeats of a tracker (sysid 1), a fixed-wing (sysid 2) and the same
fixed-wing again: only the first fixed-wing heartbeat requests streams. -/
theorem mavlink_check_target_first_trackable_witness :
    State.init.target_set = false ∧
    (heartbeats Facade.failing State.init
      ([heartbeat_message 1 1 MAV_TYPE_ANTENNA_TRACKER] ++
        heartbeat_message 2 1 MAV_TYPE_FIXED_WING ::
          [heartbeat_message 2 1 MAV_TYPE_FIXED_WING])).calls_since State.init =
      [Call.request_datastream_position 2 1, Call.request_datastream_airpressure 2 1] :=
  ⟨rfl, ((mavlink_check_target_first_trackable Facade.failing State.init rfl).2.2.1
    [heartbeat_message 1 1 MAV_TYPE_ANTENNA_TRACKER]
    (heartbeat_message 2 1 MAV_TYPE_FIXED_WING)
    [heartbeat_message 2 1 MAV_TYPE_FIXED_WING]
    (by decide) (by decide)).2.1⟩

/-- C7: while UNLOCKED, a heartbeat of a non-excluded type from (sysid,
compid) issues exactly two requests, position then air pressure, both to that
sysid and compid; `target_set` becomes true whatever the requests return; and
`sysid_target` becomes the sysid of the heartbeat if it was 0 and is kept
otherwise. -/
theorem mavlink_check_target_unlocked_trackable (v : Facade) (s : State)
    (msg : mavlink_message_t)
    (hunlocked : s.target_set = false)
    (htype : excluded_type msg.heartbeat.type = false) :
    (mavlink_check_target v s msg).calls_since s =
      [Call.request_datastream_position msg.sysid msg.compid,
       Call.request_datastream_airpressure msg.sysid msg.compid] ∧
    (mavlink_check_target v s msg).target_set = true ∧
    (s.sysid_target = 0 → (mavlink_check_target v s msg).sysid_target = (msg.sysid : Int)) ∧
    (s.sysid_target ≠ 0 → (mavlink_check_target v s msg).sysid_target = s.sysid_target) := by
  rw [mavlink_check_target_lock v s msg hunlocked htype]
  refine ⟨calls_since_of_append _ _ _ rfl, rfl, ?_, ?_⟩
  · intro h0; simp [h0]
  · intro h0; simp [h0]

/-- A fixed-wing heartbeat from (2, 1) on a fresh link, with requests that
fail. -/
theorem mavlink_check_target_unlocked_trackable_witness :
    State.init.target_set = false ∧
    excluded_type (heartbeat_message 2 1 MAV_TYPE_FIXED_WING).heartbeat.type = false ∧
    Facade.failing.request_datastream_position 2 1 = false ∧
    (mavlink_check_target Facade.failing State.init
      (heartbeat_message 2 1 MAV_TYPE_FIXED_WING)).target_set = true ∧
    (mavlink_check_target Facade.failing State.init
      (heartbeat_message 2 1 MAV_TYPE_FIXED_WING)).sysid_target = 2 :=
  ⟨rfl, by decide, rfl,
    (mavlink_check_target_unlocked_trackable Facade.failing State.init
      (heartbeat_message 2 1 MAV_TYPE_FIXED_WING) rfl (by decide)).2.1,
    (mavlink_check_target_unlocked_trackable Facade.failing State.init
      (heartbeat_message 2 1 MAV_TYPE_FIXED_WING) rfl (by decide)).2.2.1 rfl⟩

/-! ## Filtering by target system id -/

theorem packetReceived_other_sysid (v : Facade) (s : State) (msg : mavlink_message_t)
    (hconfigured : s.sysid_target ≠ 0) (hother : (msg.sysid : Int) ≠ s.sysid_target) :
    packetReceived v s msg = s := by
  have h : s.sysid_target ≠ (msg.sysid : Int) := fun e => hother e.symm
  simp [packetReceived, hconfigured, h]

theorem mavlink_check_target_sysid_target (v : Facade) (s : State) (msg : mavlink_message_t)
    (hconfigured : s.sysid_target ≠ 0) :
    (mavlink_check_target v s msg).sysid_target = s.sysid_target := by
  cases hset : s.target_set
  · cases htype : excluded_type msg.heartbeat.type
    · rw [mavlink_check_target_lock v s msg hset htype]
      simp [hconfigured]
    · rw [mavlink_check_target_excluded v s msg htype]
  · rw [mavlink_check_target_locked v s msg hset]

theorem mavlink_check_target_calls (v : Facade) (s : State) (msg : mavlink_message_t) :
    ∃ l, (mavlink_check_target v s msg).calls = s.calls ++ l := by
  cases hset : s.target_set
  · cases htype : excluded_type msg.heartbeat.type
    · rw [mavlink_check_target_lock v s msg hset htype]
      exact ⟨_, rfl⟩
    · rw [mavlink_check_target_excluded v s msg htype]
      exact ⟨[], by simp⟩
  · rw [mavlink_check_target_locked v s msg hset]
    exact ⟨[], by simp⟩

theorem packetReceived_sysid_target (v : Facade) (s : State) (msg : mavlink_message_t)
    (hconfigured : s.sysid_target ≠ 0) :
    (packetReceived v s msg).sysid_target = s.sysid_target := by
  unfold packetReceived
  split_ifs <;>
    simp [State.call, mavlink_check_target_sysid_target v s msg hconfigured]

theorem packets_filter (v : Facade) (msgs : List mavlink_message_t) :
    ∀ s : State, s.sysid_target ≠ 0 →
      packets v s msgs =
        packets v s (msgs.filter (fun m => decide ((m.sysid : Int) = s.sysid_target))) := by
  induction msgs with
  | nil => intro s _; rfl
  | cons m ms ih =>
    intro s hs
    by_cases hm : (m.sysid : Int) = s.sysid_target
    · have hkeep := packetReceived_sysid_target v s m hs
      have hnext : (packetReceived v s m).sysid_target ≠ 0 := by rw [hkeep]; exact hs
      have := ih (packetReceived v s m) hnext
      rw [hkeep] at this
      simpa [packets, List.filter_cons, hm] using this
    · have hskip := packetReceived_other_sysid v s m hs hm
      have := ih s hs
      simpa [packets, List.filter_cons, hm, hskip] using this

/-- C8: with a configured target (`sysid_target` not 0), `packetReceived` on a
message from another sysid returns the state unchanged: no lock check, no
tracking update, no call of the base handler, no call at all. A message
changes the state only if `sysid_target` is 0 or is its sysid, and then it
does reach the base handler. A run of `packetReceived` with a configured
target is the run on the messages of that sysid alone; so once a heartbeat
has locked the link and its non-zero sysid was adopted, messages of any other
sysid leave no trace. -/
theorem packetReceived_only_target_sysid (v : Facade) :
    (∀ (s : State) (msg : mavlink_message_t),
      s.sysid_target ≠ 0 → (msg.sysid : Int) ≠ s.sysid_target → packetReceived v s msg = s) ∧
    (∀ (s : State) (msg : mavlink_message_t),
      packetReceived v s msg ≠ s → s.sysid_target = 0 ∨ s.sysid_target = (msg.sysid : Int)) ∧
    (∀ (s : State) (msg : mavlink_message_t),
      s.sysid_target = 0 ∨ s.sysid_target = (msg.sysid : Int) →
        ∃ l, (packetReceived v s msg).calls = s.calls ++ l ++ [Call.base_packetReceived msg]) ∧
    (∀ (s : State) (msgs : List mavlink_message_t),
      s.sysid_target ≠ 0 →
        packets v s msgs =
          packets v s (msgs.filter (fun m => decide ((m.sysid : Int) = s.sysid_target)))) ∧
    (∀ (s : State) (hb : mavlink_message_t),
      s.sysid_target = 0 → s.target_set = false → hb.msgid = MAVLINK_MSG_ID_HEARTBEAT →
      excluded_type hb.heartbeat.type = false → hb.sysid ≠ 0 →
        (packetReceived v s hb).sysid_target = (hb.sysid : Int) ∧
        (packetReceived v s hb).target_set = true ∧
        ∀ msgs : List mavlink_message_t, (∀ m ∈ msgs, m.sysid ≠ hb.sysid) →
          packets v (packetReceived v s hb) msgs = packetReceived v s hb) := by
  refine ⟨fun s msg h0 hne => packetReceived_other_sysid v s msg h0 hne, ?_, ?_,
    fun s msgs h0 => packets_filter v msgs s h0, ?_⟩
  · intro s msg hchanged
    by_contra hcon
    push_neg at hcon
    exact hchanged (packetReceived_other_sysid v s msg hcon.1 (fun e => hcon.2 e.symm))
  · intro s msg hallowed
    have hguard : ¬ (s.sysid_target ≠ 0 ∧ s.sysid_target ≠ (msg.sysid : Int)) := by
      rintro ⟨h0, hne⟩
      rcases hallowed with h | h
      · exact h0 h
      · exact hne h
    obtain ⟨l, hl⟩ := mavlink_check_target_calls v s msg
    unfold packetReceived
    rw [if_neg hguard]
    split_ifs
    · exact ⟨l, by simp [State.call, hl]⟩
    · exact ⟨[Call.tracking_update_position msg], by simp [State.call]⟩
    · exact ⟨[Call.tracking_update_pressure msg], by simp [State.call]⟩
    · exact ⟨[], by simp [State.call]⟩
  · intro s hb h0 hunlocked hmsgid htype hsysid
    have hstep : packetReceived v s hb =
        (mavlink_check_target v s hb).call (Call.base_packetReceived hb) := by
      simp [packetReceived, h0, hmsgid]
    have hlock := mavlink_check_target_lock v s hb hunlocked htype
    have htarget : (packetReceived v s hb).sysid_target = (hb.sysid : Int) := by
      rw [hstep, hlock]; simp [State.call, h0]
    refine ⟨htarget, ?_, ?_⟩
    · rw [hstep, hlock]; simp [State.call]
    · intro msgs hothers
      have hnz : (packetReceived v s hb).sysid_target ≠ 0 := by
        rw [htarget]; exact_mod_cast hsysid
      rw [packets_filter v msgs _ hnz]
      have hnone : msgs.filter
          (fun m => decide ((m.sysid : Int) = (packetReceived v s hb).sysid_target)) = [] := by
        rw [List.filter_eq_nil_iff]
        intro m hm
        rw [htarget]
        have := hothers m hm
        simp only [decide_eq_true_eq]
        exact_mod_cast this
      rw [hnone]
      rfl

/-- A link that adopts sysid 2 from a fixed-wing heartbeat then ignores a
heartbeat and a position report from sysid 3. -/
theorem packetReceived_only_target_sysid_witness :
    State.init.sysid_target = 0 ∧ State.init.target_set = false ∧
    (heartbeat_message 2 1 MAV_TYPE_FIXED_WING).msgid = MAVLINK_MSG_ID_HEARTBEAT ∧
    excluded_type (heartbeat_message 2 1 MAV_TYPE_FIXED_WING).heartbeat.type = false ∧
    (heartbeat_message 2 1 MAV_TYPE_FIXED_WING).sysid ≠ 0 ∧
    (∀ m ∈ [heartbeat_message 3 1 MAV_TYPE_FIXED_WING,
            message MAVLINK_MSG_ID_GLOBAL_POSITION_INT 3 1],
      m.sysid ≠ (heartbeat_message 2 1 MAV_TYPE_FIXED_WING).sysid) ∧
    packets Facade.nominal
      (packetReceived Facade.nominal State.init (heartbeat_message 2 1 MAV_TYPE_FIXED_WING))
      [heartbeat_message 3 1 MAV_TYPE_FIXED_WING,
       message MAVLINK_MSG_ID_GLOBAL_POSITION_INT 3 1] =
      packetReceived Facade.nominal State.init (heartbeat_message 2 1 MAV_TYPE_FIXED_WING) :=
  ⟨rfl, rfl, rfl, by decide, by decide, by decide,
    ((packetReceived_only_target_sysid Facade.nominal).2.2.2.2 State.init
      (heartbeat_message 2 1 MAV_TYPE_FIXED_WING) rfl rfl rfl (by decide) (by decide)).2.2
      [heartbeat_message 3 1 MAV_TYPE_FIXED_WING,
       message MAVLINK_MSG_ID_GLOBAL_POSITION_INT 3 1] (by decide)⟩

/-! ## Home upload -/

/-- C9: on a MISSION_WRITE_PARTIAL_LIST packet with start index 0 the session
becomes RECEIVING with expected and last index 0, and exactly one message,
the request for the next waypoint, is queued; with another start index the
state is left as it was and nothing is sent. In both cases home is unchanged
and neither `set_home` nor an acknowledgment is called. -/
theorem handleMessage_write_partial_list (b : Build) (s : State) (msg : mavlink_message_t)
    (hmsgid : msg.msgid = MAVLINK_MSG_ID_MISSION_WRITE_PARTIAL_LIST) :
    (msg.mission_write_partial_list.start_index = 0 →
      (handleMessage b s msg).waypoint_receiving = true ∧
      (handleMessage b s msg).waypoint_request_i = 0 ∧
      (handleMessage b s msg).waypoint_request_last = 0 ∧
      (handleMessage b s msg).calls_since s = [Call.send_message ap_message.MSG_NEXT_WAYPOINT] ∧
      handleMessage b s msg =
        { s with waypoint_receiving := true, waypoint_request_i := 0, waypoint_request_last := 0,
                 calls := s.calls ++ [Call.send_message ap_message.MSG_NEXT_WAYPOINT] }) ∧
    (msg.mission_write_partial_list.start_index ≠ 0 →
      handleMessage b s msg = s ∧ (handleMessage b s msg).calls_since s = []) ∧
    (handleMessage b s msg).home = s.home ∧
    (∀ c ∈ (handleMessage b s msg).calls_since s,
      (∀ loc, c ≠ Call.set_home loc) ∧
      (∀ chan sysid compid result mission_type,
        c ≠ Call.mission_ack_send chan sysid compid result mission_type)) := by
  have hne : MAVLINK_MSG_ID_MISSION_WRITE_PARTIAL_LIST ≠ MAVLINK_MSG_ID_HEARTBEAT := by decide
  have hzero : msg.mission_write_partial_list.start_index = 0 →
      handleMessage b s msg =
        { s with waypoint_receiving := true, waypoint_request_i := 0, waypoint_request_last := 0,
                 calls := s.calls ++ [Call.send_message ap_message.MSG_NEXT_WAYPOINT] } := by
    intro h
    simp [handleMessage, hmsgid, hne, h, State.call]
  have hnonzero : msg.mission_write_partial_list.start_index ≠ 0 → handleMessage b s msg = s := by
    intro h
    simp [handleMessage, hmsgid, hne, h]
  refine ⟨?_, ?_, ?_, ?_⟩
  · intro h
    refine ⟨?_, ?_, ?_, ?_, hzero h⟩
    · rw [hzero h]
    · rw [hzero h]
    · rw [hzero h]
    · exact calls_since_of_append _ _ _ (by rw [hzero h])
  · intro h
    refine ⟨hnonzero h, ?_⟩
    rw [hnonzero h]
    exact calls_since_self s
  · by_cases h : msg.mission_write_partial_list.start_index = 0
    · rw [hzero h]
    · rw [hnonzero h]
  · intro c hc
    by_cases h : msg.mission_write_partial_list.start_index = 0
    · have hcalls : (handleMessage b s msg).calls_since s =
          [Call.send_message ap_message.MSG_NEXT_WAYPOINT] :=
        calls_since_of_append _ _ _ (by rw [hzero h])
      rw [hcalls] at hc
      simp only [List.mem_singleton] at hc
      subst hc
      exact ⟨fun _ => by simp, fun _ _ _ _ _ => by simp⟩
    · rw [hnonzero h, calls_since_self] at hc
      simp at hc

/-- A write-partial-list with start index 0 on a fresh link. -/
theorem handleMessage_write_partial_list_witness :
    (write_partial_list_message 255 0 0).msgid = MAVLINK_MSG_ID_MISSION_WRITE_PARTIAL_LIST ∧
    (write_partial_list_message 255 0 0).mission_write_partial_list.start_index = 0 ∧
    (handleMessage Build.standard State.init (write_partial_list_message 255 0 0)).calls_since
      State.init = [Call.send_message ap_message.MSG_NEXT_WAYPOINT] :=
  ⟨rfl, rfl, ((handleMessage_write_partial_list Build.standard State.init
    (write_partial_list_message 255 0 0) rfl).1 rfl).2.2.2.1⟩

theorem tell_command_global (b : Build) (home : Location) (packet : mavlink_mission_item_t)
    (hframe : packet.frame = MAV_FRAME_GLOBAL ∨ packet.frame = MAV_FRAME_MISSION) :
    tell_command b home packet =
      (MAV_MISSION_RESULT.MAV_MISSION_ACCEPTED,
        { lat := F32.toInt32 b.invalid_int32 (F32.mul (F32.ofInt 10000000) packet.x),
          lng := F32.toInt32 b.invalid_int32 (F32.mul (F32.ofInt 10000000) packet.y),
          alt := F32.toInt32 b.invalid_int32 (F32.mul packet.z (F32.ofInt 100)),
          options := 0 }) := by
  have h : packet.frame = MAV_FRAME_MISSION ∨ packet.frame = MAV_FRAME_GLOBAL := hframe.symm
  simp [tell_command, h]

theorem tell_command_global_relative_alt (b : Build) (home : Location)
    (packet : mavlink_mission_item_t) (hbuild : b.labels_distinct)
    (hframe : packet.frame = MAV_FRAME_GLOBAL_RELATIVE_ALT) :
    tell_command b home packet =
      (MAV_MISSION_RESULT.MAV_MISSION_ACCEPTED,
        { lat := F32.toInt32 b.invalid_int32 (F32.mul (F32.ofInt 10000000) packet.x),
          lng := F32.toInt32 b.invalid_int32 (F32.mul (F32.ofInt 10000000) packet.y),
          alt := F32.toInt32 b.invalid_int32 (F32.mul packet.z (F32.ofInt 100)),
          options := MASK_OPTIONS_RELATIVE_ALT }) := by
  obtain ⟨_, _, hned, _, _, hlocal, _⟩ := hbuild
  have h1 : ¬ (MAV_FRAME_GLOBAL_RELATIVE_ALT = MAV_FRAME_MISSION ∨
      MAV_FRAME_GLOBAL_RELATIVE_ALT = MAV_FRAME_GLOBAL) := by decide
  simp [tell_command, hframe, h1, hned, hlocal]

theorem F32.toInt32_of_fits (invalid : F32 → Int) (x : F32) (value : Int)
    (hfits : (!x.isNaN && !x.isInf && decide (-2147483648 ≤ x.trunc) &&
      decide (x.trunc ≤ 2147483647)) = true)
    (hvalue : x.trunc = value) : F32.toInt32 invalid x = value := by
  unfold F32.toInt32
  rw [if_pos hfits, hvalue]

/-- The floats 1e7 * 10, 1e7 * 20 and 50 * 100 are exact and convert to the
integers 100000000, 200000000 and 5000 on every target. -/
theorem scale_10_20_50 (invalid : F32 → Int) :
    F32.toInt32 invalid (F32.mul (F32.ofInt 10000000) (F32.ofInt 10)) = 100000000 ∧
    F32.toInt32 invalid (F32.mul (F32.ofInt 10000000) (F32.ofInt 20)) = 200000000 ∧
    F32.toInt32 invalid (F32.mul (F32.ofInt 50) (F32.ofInt 100)) = 5000 :=
  ⟨F32.toInt32_of_fits _ _ _ (by decide) (by decide),
   F32.toInt32_of_fits _ _ _ (by decide) (by decide),
   F32.toInt32_of_fits _ _ _ (by decide) (by decide)⟩

theorem handleMessage_mission_item_home (b : Build) (s : State) (msg : mavlink_message_t)
    (loc : Location)
    (hmsgid : msg.msgid = MAVLINK_MSG_ID_MISSION_ITEM)
    (htranslated : tell_command b (s.home.getD { lat := 0, lng := 0, alt := 0, options := 0 })
      msg.mission_item = (MAV_MISSION_RESULT.MAV_MISSION_ACCEPTED, loc))
    (hreceiving : s.waypoint_receiving = true)
    (hseq : msg.mission_item.seq = 0) :
    handleMessage b s msg =
      { s with
        home := some loc
        waypoint_receiving := false
        calls := s.calls ++
          [Call.set_home loc, Call.send_text MAV_SEVERITY_INFO "New HOME received",
           Call.mission_ack_send s.chan msg.sysid msg.compid
             MAV_MISSION_RESULT.MAV_MISSION_ACCEPTED MAV_MISSION_TYPE_MISSION] } := by
  have h1 : MAVLINK_MSG_ID_MISSION_ITEM ≠ MAVLINK_MSG_ID_HEARTBEAT := by decide
  have h2 : MAVLINK_MSG_ID_MISSION_ITEM ≠ MAVLINK_MSG_ID_MISSION_WRITE_PARTIAL_LIST := by decide
  simp [handleMessage, hmsgid, h1, h2, htranslated, hreceiving, hseq, mission_failed,
    State.set_home, State.call]

/-- C10: after a write-partial-list with start index 0, a MISSION_ITEM with
seq 0 in frame GLOBAL, MISSION or GLOBAL_RELATIVE_ALT makes home the location
with lat = 1e7f * x, lng = 1e7f * y and alt = z * 1e2f (float products,
converted to integers), flagged relative exactly for GLOBAL_RELATIVE_ALT;
`set_home` is called with it, an ACCEPTED acknowledgment is sent to the
sender, and the session is no longer receiving. For GLOBAL with x = 10.0,
y = 20.0, z = 50.0 home is lat 100000000, lng 200000000, alt 5000, not
relative. -/
theorem handleMessage_home_upload (b : Build) (s : State) (request item : mavlink_message_t)
    (hbuild : b.labels_distinct)
    (hrequest : request.msgid = MAVLINK_MSG_ID_MISSION_WRITE_PARTIAL_LIST)
    (hstart : request.mission_write_partial_list.start_index = 0)
    (hitem : item.msgid = MAVLINK_MSG_ID_MISSION_ITEM)
    (hseq : item.mission_item.seq = 0)
    (hframe : item.mission_item.frame = MAV_FRAME_GLOBAL ∨
      item.mission_item.frame = MAV_FRAME_MISSION ∨
      item.mission_item.frame = MAV_FRAME_GLOBAL_RELATIVE_ALT) :
    ∃ loc : Location,
      loc.lat = F32.toInt32 b.invalid_int32 (F32.mul (F32.ofInt 10000000) item.mission_item.x) ∧
      loc.lng = F32.toInt32 b.invalid_int32 (F32.mul (F32.ofInt 10000000) item.mission_item.y) ∧
      loc.alt = F32.toInt32 b.invalid_int32 (F32.mul item.mission_item.z (F32.ofInt 100)) ∧
      (loc.relative_alt = true ↔ item.mission_item.frame = MAV_FRAME_GLOBAL_RELATIVE_ALT) ∧
      (handleMessage b (handleMessage b s request) item).home = some loc ∧
      (handleMessage b (handleMessage b s request) item).calls_since (handleMessage b s request) =
        [Call.set_home loc, Call.send_text MAV_SEVERITY_INFO "New HOME received",
         Call.mission_ack_send s.chan item.sysid item.compid
           MAV_MISSION_RESULT.MAV_MISSION_ACCEPTED MAV_MISSION_TYPE_MISSION] ∧
      (handleMessage b (handleMessage b s request) item).waypoint_receiving = false ∧
      (item.mission_item.frame = MAV_FRAME_GLOBAL → item.mission_item.x = F32.ofInt 10 →
        item.mission_item.y = F32.ofInt 20 → item.mission_item.z = F32.ofInt 50 →
        loc = { lat := 100000000, lng := 200000000, alt := 5000, options := 0 } ∧
        loc.relative_alt = false) := by
  have hne : MAVLINK_MSG_ID_MISSION_WRITE_PARTIAL_LIST ≠ MAVLINK_MSG_ID_HEARTBEAT := by decide
  have hopen : handleMessage b s request =
      { s with waypoint_receiving := true, waypoint_request_i := 0, waypoint_request_last := 0,
               calls := s.calls ++ [Call.send_message ap_message.MSG_NEXT_WAYPOINT] } := by
    simp [handleMessage, hrequest, hne, hstart, State.call]
  obtain ⟨options, hoptions, htranslated⟩ : ∃ options : Nat,
      (options % 2 = 1 ↔ item.mission_item.frame = MAV_FRAME_GLOBAL_RELATIVE_ALT) ∧
      tell_command b ((handleMessage b s request).home.getD
          { lat := 0, lng := 0, alt := 0, options := 0 }) item.mission_item =
        (MAV_MISSION_RESULT.MAV_MISSION_ACCEPTED,
          { lat := F32.toInt32 b.invalid_int32
              (F32.mul (F32.ofInt 10000000) item.mission_item.x),
            lng := F32.toInt32 b.invalid_int32
              (F32.mul (F32.ofInt 10000000) item.mission_item.y),
            alt := F32.toInt32 b.invalid_int32 (F32.mul item.mission_item.z (F32.ofInt 100)),
            options := options }) := by
    rcases hframe with h | h | h
    · exact ⟨0, by rw [h]; decide, tell_command_global b _ _ (Or.inl h)⟩
    · exact ⟨0, by rw [h]; decide, tell_command_global b _ _ (Or.inr h)⟩
    · exact ⟨MASK_OPTIONS_RELATIVE_ALT, by rw [h]; decide,
        tell_command_global_relative_alt b _ _ hbuild h⟩
  have hreceiving : (handleMessage b s request).waypoint_receiving = true := by rw [hopen]
  have hchan : (handleMessage b s request).chan = s.chan := by rw [hopen]
  have hstep := handleMessage_mission_item_home b (handleMessage b s request) item _ hitem
    htranslated hreceiving hseq
  refine ⟨{ lat := F32.toInt32 b.invalid_int32
                (F32.mul (F32.ofInt 10000000) item.mission_item.x),
            lng := F32.toInt32 b.invalid_int32
                (F32.mul (F32.ofInt 10000000) item.mission_item.y),
            alt := F32.toInt32 b.invalid_int32 (F32.mul item.mission_item.z (F32.ofInt 100)),
            options := options }, rfl, rfl, rfl, ?_, ?_, ?_, ?_, ?_⟩
  · simpa [Location.relative_alt] using hoptions
  · rw [hstep]
  · apply calls_since_of_append
    rw [hstep, hchan]
  · rw [hstep]
  · intro hglobal hx hy hz
    have hzero : options = 0 := by
      have hnot : ¬ (options % 2 = 1) := by
        rw [hoptions, hglobal]; decide
      have := tell_command_global b ((handleMessage b s request).home.getD
        { lat := 0, lng := 0, alt := 0, options := 0 }) item.mission_item (Or.inl hglobal)
      rw [htranslated] at this
      simpa using congrArg (fun p => p.2.options) this
    obtain ⟨hlat, hlng, halt⟩ := scale_10_20_50 b.invalid_int32
    rw [hx, hy, hz, hzero, hlat, hlng, halt]
    exact ⟨rfl, by decide⟩

/-- The upload of the specification: a write-partial-list with start index 0,
then a GLOBAL item at seq 0 with x = 10.0, y = 20.0, z = 50.0, on a fresh
link. -/
theorem handleMessage_home_upload_witness :
    Build.standard.labels_distinct ∧
    (handleMessage Build.standard
      (handleMessage Build.standard State.init (write_partial_list_message 255 0 0))
      (mission_item_message 255 0
        (mission_item MAV_FRAME_GLOBAL 0 (F32.ofInt 10) (F32.ofInt 20) (F32.ofInt 50)))).home =
      some { lat := 100000000, lng := 200000000, alt := 5000, options := 0 } ∧
    (handleMessage Build.standard
      (handleMessage Build.standard State.init (write_partial_list_message 255 0 0))
      (mission_item_message 255 0
        (mission_item MAV_FRAME_GLOBAL 0 (F32.ofInt 10) (F32.ofInt 20) (F32.ofInt 50)))).calls =
      [Call.send_message ap_message.MSG_NEXT_WAYPOINT,
       Call.set_home { lat := 100000000, lng := 200000000, alt := 5000, options := 0 },
       Call.send_text MAV_SEVERITY_INFO "New HOME received",
       Call.mission_ack_send 0 255 0 MAV_MISSION_RESULT.MAV_MISSION_ACCEPTED
         MAV_MISSION_TYPE_MISSION] := by
  have hbuild : Build.standard.labels_distinct := by
    simp [Build.labels_distinct, Build.standard]
  obtain ⟨loc, _, _, _, _, hhome, _, _, hexample⟩ :=
    handleMessage_home_upload Build.standard State.init (write_partial_list_message 255 0 0)
      (mission_item_message 255 0
        (mission_item MAV_FRAME_GLOBAL 0 (F32.ofInt 10) (F32.ofInt 20) (F32.ofInt 50)))
      hbuild rfl rfl rfl rfl (Or.inl rfl)
  refine ⟨hbuild, ?_, by decide⟩
  rw [hhome, (hexample rfl rfl rfl rfl).1]

/-! ## Mission items: the four paths of the handler -/

theorem tell_command_result (b : Build) (home : Location) (packet : mavlink_mission_item_t) :
    (tell_command b home packet).1 =
      if supported_frame b packet.frame = true then MAV_MISSION_RESULT.MAV_MISSION_ACCEPTED
      else MAV_MISSION_RESULT.MAV_MISSION_UNSUPPORTED_FRAME := by
  unfold tell_command
  simp only
  by_cases h1 : packet.frame = MAV_FRAME_MISSION ∨ packet.frame = MAV_FRAME_GLOBAL
  · rw [if_pos h1]
    rcases h1 with h | h <;> simp [supported_frame, h]
  · rw [if_neg h1]
    by_cases h2 : b.MAV_FRAME_LOCAL_NED = some packet.frame
    · rw [if_pos h2]
      simp [supported_frame, h2]
    · rw [if_neg h2]
      by_cases h3 : b.MAV_FRAME_LOCAL = some packet.frame
      · rw [if_pos h3]
        simp [supported_frame, h3]
      · rw [if_neg h3]
        by_cases h4 : packet.frame = MAV_FRAME_GLOBAL_RELATIVE_ALT
        · rw [if_pos h4]
          simp [supported_frame, h4]
        · rw [if_neg h4]
          push_neg at h1
          simp [supported_frame, h1.1, h1.2, h2, h3, h4]

theorem handleMessage_mission_item_unsupported (b : Build) (s : State)
    (msg : mavlink_message_t)
    (hmsgid : msg.msgid = MAVLINK_MSG_ID_MISSION_ITEM)
    (hframe : supported_frame b msg.mission_item.frame = false) :
    handleMessage b s msg =
      s.call (Call.mission_ack_send s.chan msg.sysid msg.compid
        MAV_MISSION_RESULT.MAV_MISSION_UNSUPPORTED_FRAME MAV_MISSION_TYPE_MISSION) := by
  have h1 : MAVLINK_MSG_ID_MISSION_ITEM ≠ MAVLINK_MSG_ID_HEARTBEAT := by decide
  have h2 : MAVLINK_MSG_ID_MISSION_ITEM ≠ MAVLINK_MSG_ID_MISSION_WRITE_PARTIAL_LIST := by decide
  simp [handleMessage, hmsgid, h1, h2, tell_command_result, hframe, mission_failed]

theorem handleMessage_mission_item_idle (b : Build) (s : State) (msg : mavlink_message_t)
    (hmsgid : msg.msgid = MAVLINK_MSG_ID_MISSION_ITEM)
    (hframe : supported_frame b msg.mission_item.frame = true)
    (hidle : s.waypoint_receiving = false) :
    handleMessage b s msg =
      s.call (Call.mission_ack_send s.chan msg.sysid msg.compid
        MAV_MISSION_RESULT.MAV_MISSION_ERROR MAV_MISSION_TYPE_MISSION) := by
  have h1 : MAVLINK_MSG_ID_MISSION_ITEM ≠ MAVLINK_MSG_ID_HEARTBEAT := by decide
  have h2 : MAVLINK_MSG_ID_MISSION_ITEM ≠ MAVLINK_MSG_ID_MISSION_WRITE_PARTIAL_LIST := by decide
  simp [handleMessage, hmsgid, h1, h2, tell_command_result, hframe, hidle, mission_failed]

theorem handleMessage_mission_item_later_seq (b : Build) (s : State) (msg : mavlink_message_t)
    (hmsgid : msg.msgid = MAVLINK_MSG_ID_MISSION_ITEM)
    (hframe : supported_frame b msg.mission_item.frame = true)
    (hreceiving : s.waypoint_receiving = true)
    (hseq : msg.mission_item.seq ≠ 0) :
    handleMessage b s msg =
      s.call (Call.mission_ack_send s.chan msg.sysid msg.compid
        MAV_MISSION_RESULT.MAV_MISSION_ACCEPTED MAV_MISSION_TYPE_MISSION) := by
  have h1 : MAVLINK_MSG_ID_MISSION_ITEM ≠ MAVLINK_MSG_ID_HEARTBEAT := by decide
  have h2 : MAVLINK_MSG_ID_MISSION_ITEM ≠ MAVLINK_MSG_ID_MISSION_WRITE_PARTIAL_LIST := by decide
  simp [handleMessage, hmsgid, h1, h2, tell_command_result, hframe, hreceiving, hseq,
    mission_failed]

theorem handleMessage_mission_item_first_seq (b : Build) (s : State) (msg : mavlink_message_t)
    (hmsgid : msg.msgid = MAVLINK_MSG_ID_MISSION_ITEM)
    (hframe : supported_frame b msg.mission_item.frame = true)
    (hreceiving : s.waypoint_receiving = true)
    (hseq : msg.mission_item.seq = 0) :
    handleMessage b s msg =
      { s with
        home := some (tell_command b
          (s.home.getD { lat := 0, lng := 0, alt := 0, options := 0 }) msg.mission_item).2
        waypoint_receiving := false
        calls := s.calls ++
          [Call.set_home (tell_command b
             (s.home.getD { lat := 0, lng := 0, alt := 0, options := 0 }) msg.mission_item).2,
           Call.send_text MAV_SEVERITY_INFO "New HOME received",
           Call.mission_ack_send s.chan msg.sysid msg.compid
             MAV_MISSION_RESULT.MAV_MISSION_ACCEPTED MAV_MISSION_TYPE_MISSION] } := by
  apply handleMessage_mission_item_home b s msg _ hmsgid _ hreceiving hseq
  have := tell_command_result b (s.home.getD { lat := 0, lng := 0, alt := 0, options := 0 })
    msg.mission_item
  rw [hframe] at this
  exact Prod.ext (by simpa using this) rfl

theorem calls_since_call (s : State) (c : Call) : (s.call c).calls_since s = [c] :=
  calls_since_of_append _ _ _ rfl

/-- C11: a MISSION_ITEM whose frame has no case in the frame switch is
answered, in every session state and for every sequence index, by one
acknowledgment with result MAV_MISSION_UNSUPPORTED_FRAME and nothing else:
`set_home` is not called and home, set or unset, is left as it was. -/
theorem handleMessage_unsupported_frame (b : Build) (s : State) (msg : mavlink_message_t)
    (hmsgid : msg.msgid = MAVLINK_MSG_ID_MISSION_ITEM)
    (hframe : supported_frame b msg.mission_item.frame = false) :
    (handleMessage b s msg).calls_since s =
      [Call.mission_ack_send s.chan msg.sysid msg.compid
        MAV_MISSION_RESULT.MAV_MISSION_UNSUPPORTED_FRAME MAV_MISSION_TYPE_MISSION] ∧
    (∀ loc, Call.set_home loc ∉ (handleMessage b s msg).calls_since s) ∧
    (handleMessage b s msg).home = s.home ∧
    (s.home = none → (handleMessage b s msg).home = none) := by
  rw [handleMessage_mission_item_unsupported b s msg hmsgid hframe, calls_since_call]
  exact ⟨rfl, fun loc h => by simp at h, rfl, fun h => h⟩

/-- An item in frame 5 (GLOBAL_INT) received with an open session and no home
set. -/
theorem handleMessage_unsupported_frame_witness :
    (mission_item_message 255 0
      (mission_item 5 0 (F32.ofInt 10) (F32.ofInt 20) (F32.ofInt 50))).msgid =
        MAVLINK_MSG_ID_MISSION_ITEM ∧
    supported_frame Build.standard (mission_item_message 255 0
      (mission_item 5 0 (F32.ofInt 10) (F32.ofInt 20) (F32.ofInt 50))).mission_item.frame =
        false ∧
    (handleMessage Build.standard State.receiving (mission_item_message 255 0
      (mission_item 5 0 (F32.ofInt 10) (F32.ofInt 20) (F32.ofInt 50)))).calls_since
        State.receiving =
      [Call.mission_ack_send 0 255 0 MAV_MISSION_RESULT.MAV_MISSION_UNSUPPORTED_FRAME
        MAV_MISSION_TYPE_MISSION] ∧
    (handleMessage Build.standard State.receiving (mission_item_message 255 0
      (mission_item 5 0 (F32.ofInt 10) (F32.ofInt 20) (F32.ofInt 50)))).home = none :=
  ⟨rfl, by decide,
    (handleMessage_unsupported_frame Build.standard State.receiving (mission_item_message 255 0
      (mission_item 5 0 (F32.ofInt 10) (F32.ofInt 20) (F32.ofInt 50))) rfl (by decide)).1,
    (handleMessage_unsupported_frame Build.standard State.receiving (mission_item_message 255 0
      (mission_item 5 0 (F32.ofInt 10) (F32.ofInt 20) (F32.ofInt 50))) rfl (by decide)).2.2.2
      rfl⟩

/-- C12: a MISSION_ITEM received while no upload session is open, whatever
its frame and sequence index, is answered by one acknowledgment whose result
is not MAV_MISSION_ACCEPTED; `set_home` is not called, home is unchanged and
the session stays not-receiving. -/
theorem handleMessage_mission_item_no_session (b : Build) (s : State)
    (msg : mavlink_message_t)
    (hmsgid : msg.msgid = MAVLINK_MSG_ID_MISSION_ITEM)
    (hidle : s.waypoint_receiving = false) :
    (∃ result, result ≠ MAV_MISSION_RESULT.MAV_MISSION_ACCEPTED ∧
      (handleMessage b s msg).calls_since s =
        [Call.mission_ack_send s.chan msg.sysid msg.compid result MAV_MISSION_TYPE_MISSION]) ∧
    (∀ loc, Call.set_home loc ∉ (handleMessage b s msg).calls_since s) ∧
    (handleMessage b s msg).home = s.home ∧
    (handleMessage b s msg).waypoint_receiving = false := by
  cases hframe : supported_frame b msg.mission_item.frame
  · rw [handleMessage_mission_item_unsupported b s msg hmsgid hframe, calls_since_call]
    exact ⟨⟨_, by decide, rfl⟩, fun loc h => by simp at h, rfl, hidle⟩
  · rw [handleMessage_mission_item_idle b s msg hmsgid hframe hidle, calls_since_call]
    exact ⟨⟨_, by decide, rfl⟩, fun loc h => by simp at h, rfl, hidle⟩

/-- A seq 0 item in frame GLOBAL on a fresh link, where no session is open. -/
theorem handleMessage_mission_item_no_session_witness :
    (mission_item_message 255 0
      (mission_item MAV_FRAME_GLOBAL 0 (F32.ofInt 10) (F32.ofInt 20) (F32.ofInt 50))).msgid =
        MAVLINK_MSG_ID_MISSION_ITEM ∧
    State.init.waypoint_receiving = false ∧
    (handleMessage Build.standard State.init (mission_item_message 255 0
      (mission_item MAV_FRAME_GLOBAL 0 (F32.ofInt 10) (F32.ofInt 20)
        (F32.ofInt 50)))).waypoint_receiving = false ∧
    (handleMessage Build.standard State.init (mission_item_message 255 0
      (mission_item MAV_FRAME_GLOBAL 0 (F32.ofInt 10) (F32.ofInt 20)
        (F32.ofInt 50)))).home = State.init.home :=
  ⟨rfl, rfl,
    (handleMessage_mission_item_no_session Build.standard State.init (mission_item_message 255 0
      (mission_item MAV_FRAME_GLOBAL 0 (F32.ofInt 10) (F32.ofInt 20) (F32.ofInt 50)))
      rfl rfl).2.2.2,
    (handleMessage_mission_item_no_session Build.standard State.init (mission_item_message 255 0
      (mission_item MAV_FRAME_GLOBAL 0 (F32.ofInt 10) (F32.ofInt 20) (F32.ofInt 50)))
      rfl rfl).2.2.1⟩

/-- C13, as stated, fails: on a fresh link (IDLE) an item in frame 5
(GLOBAL_INT, which has no case in the frame switch) is acknowledged with
MAV_MISSION_UNSUPPORTED_FRAME, not with MAV_MISSION_ERROR. -/
theorem handleMessage_idle_unsupported_frame_not_error :
    State.init.waypoint_receiving = false ∧
    (handleMessage Build.standard State.init (mission_item_message 255 0
      (mission_item 5 0 (F32.ofInt 10) (F32.ofInt 20) (F32.ofInt 50)))).calls =
      [Call.mission_ack_send 0 255 0 MAV_MISSION_RESULT.MAV_MISSION_UNSUPPORTED_FRAME
        MAV_MISSION_TYPE_MISSION] ∧
    MAV_MISSION_RESULT.MAV_MISSION_UNSUPPORTED_FRAME ≠ MAV_MISSION_RESULT.MAV_MISSION_ERROR := by
  decide

/-- C13 (amended): a MISSION_ITEM received while the session is IDLE is
acknowledged with MAV_MISSION_ERROR when its frame has a case in the frame
switch, and with MAV_MISSION_UNSUPPORTED_FRAME when it has none: the frame is
checked before the session. -/
theorem handleMessage_idle_ack_result (b : Build) (s : State) (msg : mavlink_message_t)
    (hmsgid : msg.msgid = MAVLINK_MSG_ID_MISSION_ITEM)
    (hidle : s.waypoint_receiving = false) :
    (supported_frame b msg.mission_item.frame = true →
      (handleMessage b s msg).calls_since s =
        [Call.mission_ack_send s.chan msg.sysid msg.compid
          MAV_MISSION_RESULT.MAV_MISSION_ERROR MAV_MISSION_TYPE_MISSION]) ∧
    (supported_frame b msg.mission_item.frame = false →
      (handleMessage b s msg).calls_since s =
        [Call.mission_ack_send s.chan msg.sysid msg.compid
          MAV_MISSION_RESULT.MAV_MISSION_UNSUPPORTED_FRAME MAV_MISSION_TYPE_MISSION]) := by
  constructor
  · intro hframe
    rw [handleMessage_mission_item_idle b s msg hmsgid hframe hidle, calls_since_call]
  · intro hframe
    rw [handleMessage_mission_item_unsupported b s msg hmsgid hframe, calls_since_call]

/-- A GLOBAL item on a fresh link is acknowledged with MAV_MISSION_ERROR. -/
theorem handleMessage_idle_ack_result_witness :
    (mission_item_message 255 0
      (mission_item MAV_FRAME_GLOBAL 0 (F32.ofInt 10) (F32.ofInt 20) (F32.ofInt 50))).msgid =
        MAVLINK_MSG_ID_MISSION_ITEM ∧
    State.init.waypoint_receiving = false ∧
    (handleMessage Build.standard State.init (mission_item_message 255 0
      (mission_item MAV_FRAME_GLOBAL 0 (F32.ofInt 10) (F32.ofInt 20)
        (F32.ofInt 50)))).calls_since State.init =
      [Call.mission_ack_send 0 255 0 MAV_MISSION_RESULT.MAV_MISSION_ERROR
        MAV_MISSION_TYPE_MISSION] :=
  ⟨rfl, rfl,
    (handleMessage_idle_ack_result Build.standard State.init (mission_item_message 255 0
      (mission_item MAV_FRAME_GLOBAL 0 (F32.ofInt 10) (F32.ofInt 20) (F32.ofInt 50)))
      rfl rfl).1 (by decide)⟩

/-- C14: every MISSION_ITEM is answered by exactly one MISSION_ACK, on each of
the four paths; it is the last call made, it is addressed to the sysid and
compid of the message received, and it carries the result computed on that
path: UNSUPPORTED_FRAME when the frame has no case, otherwise ERROR when no
session is open, otherwise ACCEPTED (seq 0 or not). -/
theorem handleMessage_mission_item_one_ack (b : Build) (s : State) (msg : mavlink_message_t)
    (hmsgid : msg.msgid = MAVLINK_MSG_ID_MISSION_ITEM) :
    ((handleMessage b s msg).calls_since s).filter Call.is_mission_ack =
      [Call.mission_ack_send s.chan msg.sysid msg.compid
        (if supported_frame b msg.mission_item.frame = false then
          MAV_MISSION_RESULT.MAV_MISSION_UNSUPPORTED_FRAME
         else if s.waypoint_receiving = false then MAV_MISSION_RESULT.MAV_MISSION_ERROR
         else MAV_MISSION_RESULT.MAV_MISSION_ACCEPTED)
        MAV_MISSION_TYPE_MISSION] ∧
    (((handleMessage b s msg).calls_since s).filter Call.is_mission_ack).length = 1 ∧
    ((handleMessage b s msg).calls_since s).getLast? =
      some (Call.mission_ack_send s.chan msg.sysid msg.compid
        (if supported_frame b msg.mission_item.frame = false then
          MAV_MISSION_RESULT.MAV_MISSION_UNSUPPORTED_FRAME
         else if s.waypoint_receiving = false then MAV_MISSION_RESULT.MAV_MISSION_ERROR
         else MAV_MISSION_RESULT.MAV_MISSION_ACCEPTED)
        MAV_MISSION_TYPE_MISSION) := by
  cases hframe : supported_frame b msg.mission_item.frame
  · rw [handleMessage_mission_item_unsupported b s msg hmsgid hframe, calls_since_call]
    simp [Call.is_mission_ack]
  · cases hreceiving : s.waypoint_receiving
    · rw [handleMessage_mission_item_idle b s msg hmsgid hframe hreceiving, calls_since_call]
      simp [Call.is_mission_ack]
    · by_cases hseq : msg.mission_item.seq = 0
      · rw [calls_since_of_append _ _ _
          (by rw [handleMessage_mission_item_first_seq b s msg hmsgid hframe hreceiving hseq])]
        simp [Call.is_mission_ack]
      · rw [handleMessage_mission_item_later_seq b s msg hmsgid hframe hreceiving hseq,
          calls_since_call]
        simp [Call.is_mission_ack]

/-- The accepted home item from (255, 7) on channel 0: one ACCEPTED
acknowledgment to (255, 7). -/
theorem handleMessage_mission_item_one_ack_witness :
    (mission_item_message 255 7
      (mission_item MAV_FRAME_GLOBAL 0 (F32.ofInt 10) (F32.ofInt 20) (F32.ofInt 50))).msgid =
        MAVLINK_MSG_ID_MISSION_ITEM ∧
    ((handleMessage Build.standard State.receiving (mission_item_message 255 7
      (mission_item MAV_FRAME_GLOBAL 0 (F32.ofInt 10) (F32.ofInt 20)
        (F32.ofInt 50)))).calls_since State.receiving).filter Call.is_mission_ack =
      [Call.mission_ack_send 0 255 7 MAV_MISSION_RESULT.MAV_MISSION_ACCEPTED
        MAV_MISSION_TYPE_MISSION] :=
  ⟨rfl,
    (handleMessage_mission_item_one_ack Build.standard State.receiving
      (mission_item_message 255 7
        (mission_item MAV_FRAME_GLOBAL 0 (F32.ofInt 10) (F32.ofInt 20) (F32.ofInt 50)))
      rfl).1.trans (by decide)⟩

/-- C15, as stated, fails: with an open session, an item in frame 5
(GLOBAL_INT) is rejected with MAV_MISSION_UNSUPPORTED_FRAME and the session
is still RECEIVING afterwards. -/
theorem handleMessage_rejection_keeps_session :
    State.receiving.waypoint_receiving = true ∧
    (handleMessage Build.standard State.receiving (mission_item_message 255 0
      (mission_item 5 0 (F32.ofInt 10) (F32.ofInt 20) (F32.ofInt 50)))).calls =
      [Call.mission_ack_send 0 255 0 MAV_MISSION_RESULT.MAV_MISSION_UNSUPPORTED_FRAME
        MAV_MISSION_TYPE_MISSION] ∧
    (handleMessage Build.standard State.receiving (mission_item_message 255 0
      (mission_item 5 0 (F32.ofInt 10) (F32.ofInt 20) (F32.ofInt 50)))).waypoint_receiving =
      true := by
  decide

/-- C15 (amended): a MISSION_ITEM is rejected (the acknowledged result is not
ACCEPTED) exactly when its frame has no case or no session is open, and a
rejection leaves the session as it was: IDLE stays IDLE, and an item of an
unsupported frame received while RECEIVING leaves the session RECEIVING. -/
theorem handleMessage_rejection_session_unchanged (b : Build) (s : State)
    (msg : mavlink_message_t)
    (hmsgid : msg.msgid = MAVLINK_MSG_ID_MISSION_ITEM) :
    ((∃ chan sysid compid result mission_type,
        Call.mission_ack_send chan sysid compid result mission_type ∈
          (handleMessage b s msg).calls_since s ∧
        result ≠ MAV_MISSION_RESULT.MAV_MISSION_ACCEPTED) ↔
      (supported_frame b msg.mission_item.frame = false ∨ s.waypoint_receiving = false)) ∧
    ((supported_frame b msg.mission_item.frame = false ∨ s.waypoint_receiving = false) →
      (handleMessage b s msg).waypoint_receiving = s.waypoint_receiving) ∧
    (s.waypoint_receiving = false → (handleMessage b s msg).waypoint_receiving = false) ∧
    (supported_frame b msg.mission_item.frame = false → s.waypoint_receiving = true →
      (handleMessage b s msg).waypoint_receiving = true) := by
  have hkeep : (supported_frame b msg.mission_item.frame = false ∨
      s.waypoint_receiving = false) →
      (handleMessage b s msg).waypoint_receiving = s.waypoint_receiving := by
    intro h
    cases hframe : supported_frame b msg.mission_item.frame
    · rw [handleMessage_mission_item_unsupported b s msg hmsgid hframe]; rfl
    · rcases h with h | h
      · rw [hframe] at h; cases h
      · rw [handleMessage_mission_item_idle b s msg hmsgid hframe h]; rfl
  refine ⟨?_, hkeep, fun h => (hkeep (Or.inr h)).trans h,
    fun hf hr => (hkeep (Or.inl hf)).trans hr⟩
  cases hframe : supported_frame b msg.mission_item.frame
  · rw [handleMessage_mission_item_unsupported b s msg hmsgid hframe, calls_since_call]
    simp only [List.mem_singleton, true_or, iff_true]
    exact ⟨_, _, _, _, _, rfl, by decide⟩
  · cases hreceiving : s.waypoint_receiving
    · rw [handleMessage_mission_item_idle b s msg hmsgid hframe hreceiving, calls_since_call]
      simp only [List.mem_singleton, or_true, iff_true]
      exact ⟨_, _, _, _, _, rfl, by decide⟩
    · by_cases hseq : msg.mission_item.seq = 0
      · rw [calls_since_of_append _ _ _
          (by rw [handleMessage_mission_item_first_seq b s msg hmsgid hframe hreceiving hseq])]
        simp
      · rw [handleMessage_mission_item_later_seq b s msg hmsgid hframe hreceiving hseq,
          calls_since_call]
        simp

/-- A GLOBAL item rejected on a fresh link: the session stays IDLE. -/
theorem handleMessage_rejection_session_unchanged_witness :
    (mission_item_message 255 0
      (mission_item MAV_FRAME_GLOBAL 0 (F32.ofInt 10) (F32.ofInt 20) (F32.ofInt 50))).msgid =
        MAVLINK_MSG_ID_MISSION_ITEM ∧
    State.init.waypoint_receiving = false ∧
    (handleMessage Build.standard State.init (mission_item_message 255 0
      (mission_item MAV_FRAME_GLOBAL 0 (F32.ofInt 10) (F32.ofInt 20)
        (F32.ofInt 50)))).waypoint_receiving = false :=
  ⟨rfl, rfl,
    (handleMessage_rejection_session_unchanged Build.standard State.init
      (mission_item_message 255 0
        (mission_item MAV_FRAME_GLOBAL 0 (F32.ofInt 10) (F32.ofInt 20) (F32.ofInt 50)))
      rfl).2.2.1 rfl⟩

/-- C16, as stated, fails: with an open session, a GLOBAL item with seq 1 is
acknowledged (ACCEPTED), home stays unset, and the session is still RECEIVING
afterwards. -/
theorem handleMessage_later_seq_keeps_session :
    State.receiving.waypoint_receiving = true ∧
    supported_frame Build.standard MAV_FRAME_GLOBAL = true ∧
    (handleMessage Build.standard State.receiving (mission_item_message 255 0
      (mission_item MAV_FRAME_GLOBAL 1 (F32.ofInt 10) (F32.ofInt 20)
        (F32.ofInt 50)))).waypoint_receiving = true ∧
    (handleMessage Build.standard State.receiving (mission_item_message 255 0
      (mission_item MAV_FRAME_GLOBAL 1 (F32.ofInt 10) (F32.ofInt 20) (F32.ofInt 50)))).home =
      none ∧
    (handleMessage Build.standard State.receiving (mission_item_message 255 0
      (mission_item MAV_FRAME_GLOBAL 1 (F32.ofInt 10) (F32.ofInt 20) (F32.ofInt 50)))).calls =
      [Call.mission_ack_send 0 255 0 MAV_MISSION_RESULT.MAV_MISSION_ACCEPTED
        MAV_MISSION_TYPE_MISSION] := by
  decide

/-- C16 (amended): a MISSION_ITEM with a supported frame and a sequence index
other than 0, received while RECEIVING, changes nothing but the calls: home
is not updated, `set_home` is not called, the acknowledgment is still sent
(with result ACCEPTED), and the session is still RECEIVING afterwards. -/
theorem handleMessage_later_seq (b : Build) (s : State) (msg : mavlink_message_t)
    (hmsgid : msg.msgid = MAVLINK_MSG_ID_MISSION_ITEM)
    (hframe : supported_frame b msg.mission_item.frame = true)
    (hreceiving : s.waypoint_receiving = true)
    (hseq : msg.mission_item.seq ≠ 0) :
    (handleMessage b s msg).home = s.home ∧
    (∀ loc, Call.set_home loc ∉ (handleMessage b s msg).calls_since s) ∧
    (handleMessage b s msg).calls_since s =
      [Call.mission_ack_send s.chan msg.sysid msg.compid
        MAV_MISSION_RESULT.MAV_MISSION_ACCEPTED MAV_MISSION_TYPE_MISSION] ∧
    (handleMessage b s msg).waypoint_receiving = true ∧
    handleMessage b s msg =
      s.call (Call.mission_ack_send s.chan msg.sysid msg.compid
        MAV_MISSION_RESULT.MAV_MISSION_ACCEPTED MAV_MISSION_TYPE_MISSION) := by
  have hstep := handleMessage_mission_item_later_seq b s msg hmsgid hframe hreceiving hseq
  rw [hstep, calls_since_call]
  exact ⟨rfl, fun loc h => by simp at h, rfl, hreceiving, rfl⟩

/-- A GLOBAL item with seq 1 received with an open session. -/
theorem handleMessage_later_seq_witness :
    (mission_item_message 255 0
      (mission_item MAV_FRAME_GLOBAL 1 (F32.ofInt 10) (F32.ofInt 20) (F32.ofInt 50))).msgid =
        MAVLINK_MSG_ID_MISSION_ITEM ∧
    supported_frame Build.standard (mission_item_message 255 0
      (mission_item MAV_FRAME_GLOBAL 1 (F32.ofInt 10) (F32.ofInt 20)
        (F32.ofInt 50))).mission_item.frame = true ∧
    State.receiving.waypoint_receiving = true ∧
    (mission_item_message 255 0
      (mission_item MAV_FRAME_GLOBAL 1 (F32.ofInt 10) (F32.ofInt 20)
        (F32.ofInt 50))).mission_item.seq ≠ 0 ∧
    (handleMessage Build.standard State.receiving (mission_item_message 255 0
      (mission_item MAV_FRAME_GLOBAL 1 (F32.ofInt 10) (F32.ofInt 20) (F32.ofInt 50)))).home =
      State.receiving.home :=
  ⟨rfl, by decide, rfl, by decide,
    (handleMessage_later_seq Build.standard State.receiving (mission_item_message 255 0
      (mission_item MAV_FRAME_GLOBAL 1 (F32.ofInt 10) (F32.ofInt 20) (F32.ofInt 50)))
      rfl (by decide) rfl (by decide)).1⟩

/-! ## Who calls `set_home` -/

theorem handleMessage_other_message_calls (b : Build) (s : State) (msg : mavlink_message_t)
    (hmsgid : msg.msgid ≠ MAVLINK_MSG_ID_MISSION_ITEM) :
    ((handleMessage b s msg).calls_since s).filter Call.is_set_home = [] := by
  unfold handleMessage
  rw [if_neg hmsgid]
  by_cases hstart : msg.mission_write_partial_list.start_index = 0 <;>
    split_ifs <;> simp [State.calls_since, State.call, Call.is_set_home, hstart]

theorem handle_command_long_packet_no_set_home (v : Facade) (s : State)
    (packet : mavlink_command_long_t) :
    ((handle_command_long_packet v s packet).2.calls_since s).filter Call.is_set_home = [] := by
  unfold handle_command_long_packet
  split_ifs <;> simp [State.calls_since, State.call, Call.is_set_home]

/-- C18: `handleMessage` on a MISSION_ITEM calls `set_home` if and only if
the session is RECEIVING, the frame is supported and seq is 0, and then
exactly once, with the location translated from the item; on every other
message `handleMessage` makes no `set_home` call, and neither does
`handle_command_long_packet` on any command. -/
theorem set_home_only_from_first_item (b : Build) (v : Facade) (s : State) :
    (∀ msg : mavlink_message_t, msg.msgid = MAVLINK_MSG_ID_MISSION_ITEM →
      ((∃ loc, Call.set_home loc ∈ (handleMessage b s msg).calls_since s) ↔
        (s.waypoint_receiving = true ∧ supported_frame b msg.mission_item.frame = true ∧
          msg.mission_item.seq = 0)) ∧
      ((handleMessage b s msg).calls_since s).filter Call.is_set_home =
        (if s.waypoint_receiving = true ∧ supported_frame b msg.mission_item.frame = true ∧
            msg.mission_item.seq = 0 then
          [Call.set_home (tell_command b
            (s.home.getD { lat := 0, lng := 0, alt := 0, options := 0 }) msg.mission_item).2]
        else [])) ∧
    (∀ msg : mavlink_message_t, msg.msgid ≠ MAVLINK_MSG_ID_MISSION_ITEM →
      ((handleMessage b s msg).calls_since s).filter Call.is_set_home = []) ∧
    (∀ packet : mavlink_command_long_t,
      ((handle_command_long_packet v s packet).2.calls_since s).filter Call.is_set_home = []) := by
  refine ⟨?_, fun msg h => handleMessage_other_message_calls b s msg h,
    fun packet => handle_command_long_packet_no_set_home v s packet⟩
  intro msg hmsgid
  cases hframe : supported_frame b msg.mission_item.frame
  · rw [handleMessage_mission_item_unsupported b s msg hmsgid hframe, calls_since_call]
    simp [Call.is_set_home]
  · cases hreceiving : s.waypoint_receiving
    · rw [handleMessage_mission_item_idle b s msg hmsgid hframe hreceiving, calls_since_call]
      simp [Call.is_set_home]
    · by_cases hseq : msg.mission_item.seq = 0
      · rw [calls_since_of_append _ _ _
          (by rw [handleMessage_mission_item_first_seq b s msg hmsgid hframe hreceiving hseq])]
        simp [Call.is_set_home, hseq]
      · rw [handleMessage_mission_item_later_seq b s msg hmsgid hframe hreceiving hseq,
          calls_since_call]
        simp [Call.is_set_home, hseq]

/-- The home item of the specification, received with an open session: one
`set_home` call. -/
theorem set_home_only_from_first_item_witness :
    (mission_item_message 255 0
      (mission_item MAV_FRAME_GLOBAL 0 (F32.ofInt 10) (F32.ofInt 20) (F32.ofInt 50))).msgid =
        MAVLINK_MSG_ID_MISSION_ITEM ∧
    ((handleMessage Build.standard State.receiving (mission_item_message 255 0
      (mission_item MAV_FRAME_GLOBAL 0 (F32.ofInt 10) (F32.ofInt 20)
        (F32.ofInt 50)))).calls_since State.receiving).filter Call.is_set_home =
      [Call.set_home { lat := 100000000, lng := 200000000, alt := 5000, options := 0 }] :=
  ⟨rfl,
    (((set_home_only_from_first_item Build.standard Facade.nominal State.receiving).1
      (mission_item_message 255 0
        (mission_item MAV_FRAME_GLOBAL 0 (F32.ofInt 10) (F32.ofInt 20) (F32.ofInt 50)))
      rfl).2).trans (by decide)⟩

/-! ## Telemetry and mode changes -/

theorem send_nav_controller_output_calls (b : Build) (s : State) (chan : Nat) :
    ∃ nav_roll nav_pitch nav_bearing target_bearing wp_dist alt_error aspd_error xtrack_error,
      (Tracker.send_nav_controller_output b s chan).calls_since s =
        [Call.mavlink_msg_nav_controller_output_send chan nav_roll nav_pitch nav_bearing
          target_bearing wp_dist alt_error aspd_error xtrack_error] :=
  ⟨_, _, _, _, _, _, _, _, calls_since_call s _⟩

theorem send_extended_status1_calls (b : Build) (v : Facade) (s : State) (chan : Nat) :
    ∃ load voltage_battery current_battery battery_remaining,
      (Tracker.send_extended_status1 b v s chan).calls_since s =
        [Call.mavlink_msg_sys_status_send chan load voltage_battery current_battery
          battery_remaining] :=
  ⟨_, _, _, _, calls_since_call s _⟩

/-- C17: for MSG_NAV_CONTROLLER_OUTPUT and MSG_EXTENDED_STATUS1,
`try_send_message` returns false and leaves the state untouched (nothing is
emitted) when the free transmit space of the channel is below the packet
overhead plus the payload length of the message; otherwise it emits exactly
one message, NAV_CONTROLLER_OUTPUT resp. SYS_STATUS, on its channel and
returns true. For every other id it returns what the base class returns and
emits no message itself. -/
theorem try_send_message_checks_space (b : Build) (v : Facade) (s : State) :
    (v.comm_get_txspace s.chan < v.packet_overhead + MAVLINK_MSG_ID_NAV_CONTROLLER_OUTPUT_LEN →
      try_send_message b v s ap_message.MSG_NAV_CONTROLLER_OUTPUT = (false, s)) ∧
    (¬ v.comm_get_txspace s.chan <
        v.packet_overhead + MAVLINK_MSG_ID_NAV_CONTROLLER_OUTPUT_LEN →
      (try_send_message b v s ap_message.MSG_NAV_CONTROLLER_OUTPUT).1 = true ∧
      ∃ nav_roll nav_pitch nav_bearing target_bearing wp_dist alt_error aspd_error xtrack_error,
        (try_send_message b v s ap_message.MSG_NAV_CONTROLLER_OUTPUT).2.calls_since s =
          [Call.mavlink_msg_nav_controller_output_send s.chan nav_roll nav_pitch nav_bearing
            target_bearing wp_dist alt_error aspd_error xtrack_error]) ∧
    (v.comm_get_txspace s.chan < v.packet_overhead + MAVLINK_MSG_ID_SYS_STATUS_LEN →
      try_send_message b v s ap_message.MSG_EXTENDED_STATUS1 = (false, s)) ∧
    (¬ v.comm_get_txspace s.chan < v.packet_overhead + MAVLINK_MSG_ID_SYS_STATUS_LEN →
      (try_send_message b v s ap_message.MSG_EXTENDED_STATUS1).1 = true ∧
      ∃ load voltage_battery current_battery battery_remaining,
        (try_send_message b v s ap_message.MSG_EXTENDED_STATUS1).2.calls_since s =
          [Call.mavlink_msg_sys_status_send s.chan load voltage_battery current_battery
            battery_remaining]) ∧
    (∀ id : ap_message, id ≠ ap_message.MSG_NAV_CONTROLLER_OUTPUT →
      id ≠ ap_message.MSG_EXTENDED_STATUS1 →
        (try_send_message b v s id).1 = v.base_try_send_message id ∧
        (try_send_message b v s id).2.calls_since s = [Call.base_try_send_message id] ∧
        ((try_send_message b v s id).2.calls_since s).filter Call.is_telemetry = []) := by
  refine ⟨?_, ?_, ?_, ?_, ?_⟩
  · intro h
    simp [try_send_message, payload_fits, h]
  · intro h
    constructor
    · simp [try_send_message, payload_fits, h]
    · have hstep : (try_send_message b v s ap_message.MSG_NAV_CONTROLLER_OUTPUT).2 =
          Tracker.send_nav_controller_output b s s.chan := by
        simp [try_send_message, payload_fits, h]
      rw [hstep]
      exact send_nav_controller_output_calls b s s.chan
  · intro h
    simp [try_send_message, payload_fits, h]
  · intro h
    constructor
    · simp [try_send_message, payload_fits, h]
    · have hstep : (try_send_message b v s ap_message.MSG_EXTENDED_STATUS1).2 =
          Tracker.send_extended_status1 b v s s.chan := by
        simp [try_send_message, payload_fits, h]
      rw [hstep]
      exact send_extended_status1_calls b v s s.chan
  · intro id hnav hext
    have hstep : try_send_message b v s id =
        (v.base_try_send_message id, s.call (Call.base_try_send_message id)) := by
      cases id <;> first | exact absurd rfl hnav | exact absurd rfl hext | rfl
    rw [hstep]
    refine ⟨rfl, calls_since_call _ _, ?_⟩
    rw [calls_since_call]
    rfl

/-- A full transmit buffer defers SYS_STATUS; with 256 free bytes it is
sent. -/
theorem try_send_message_checks_space_witness :
    Facade.failing.comm_get_txspace State.init.chan <
      Facade.failing.packet_overhead + MAVLINK_MSG_ID_SYS_STATUS_LEN ∧
    try_send_message Build.standard Facade.failing State.init ap_message.MSG_EXTENDED_STATUS1 =
      (false, State.init) ∧
    ¬ Facade.nominal.comm_get_txspace State.init.chan <
      Facade.nominal.packet_overhead + MAVLINK_MSG_ID_SYS_STATUS_LEN ∧
    (try_send_message Build.standard Facade.nominal State.init
      ap_message.MSG_EXTENDED_STATUS1).1 = true :=
  ⟨by decide,
    (try_send_message_checks_space Build.standard Facade.failing State.init).2.2.1 (by decide),
    by decide,
    ((try_send_message_checks_space Build.standard Facade.nominal State.init).2.2.2.1
      (by decide)).1⟩

/-- C20: the `set_mode` wrapper returns true if and only if the requested
mode is the value of AUTO, MANUAL, SCAN, SERVO_TEST or STOP; it then asks the
vehicle for exactly that mode, once, with reason GCS_COMMAND. For every other
value, INITIALISING and bytes that are no mode included, it returns false and
leaves the state, so the control mode, untouched, without any call. -/
theorem set_mode_wrapper (v : Facade) (s : State) (mode : Nat) :
    ((set_mode v s mode).1 = true ↔
      (mode = ControlMode.AUTO.toNat ∨ mode = ControlMode.MANUAL.toNat ∨
        mode = ControlMode.SCAN.toNat ∨ mode = ControlMode.SERVO_TEST.toNat ∨
        mode = ControlMode.STOP.toNat)) ∧
    (∀ m : ControlMode, m ≠ ControlMode.INITIALISING → mode = m.toNat →
      (set_mode v s mode).1 = true ∧
      (set_mode v s mode).2.calls_since s =
        [Call.set_mode m mode_reason_t.MODE_REASON_GCS_COMMAND]) ∧
    ((set_mode v s mode).1 = false →
      (set_mode v s mode).2 = s ∧ (set_mode v s mode).2.calls_since s = [] ∧
      (set_mode v s mode).2.control_mode = s.control_mode) ∧
    (mode = ControlMode.INITIALISING.toNat → (set_mode v s mode).1 = false) ∧
    ((∀ m : ControlMode, mode ≠ m.toNat) → (set_mode v s mode).1 = false) := by
  have hiff : (set_mode v s mode).1 = true ↔
      (mode = ControlMode.AUTO.toNat ∨ mode = ControlMode.MANUAL.toNat ∨
        mode = ControlMode.SCAN.toNat ∨ mode = ControlMode.SERVO_TEST.toNat ∨
        mode = ControlMode.STOP.toNat) := by
    unfold set_mode
    split_ifs <;> simp_all
  have hfalse : (set_mode v s mode).1 = false → (set_mode v s mode).2 = s := by
    unfold set_mode
    split_ifs <;> simp
  refine ⟨hiff, ?_, ?_, ?_, ?_⟩
  · intro m hm hmode
    subst hmode
    cases m
    · exact ⟨by simp [set_mode, ControlMode.toNat],
        calls_since_of_append _ _ _ (by simp [set_mode, ControlMode.toNat, State.call])⟩
    · exact ⟨by simp [set_mode, ControlMode.toNat],
        calls_since_of_append _ _ _ (by simp [set_mode, ControlMode.toNat, State.call])⟩
    · exact ⟨by simp [set_mode, ControlMode.toNat],
        calls_since_of_append _ _ _ (by simp [set_mode, ControlMode.toNat, State.call])⟩
    · exact ⟨by simp [set_mode, ControlMode.toNat],
        calls_since_of_append _ _ _ (by simp [set_mode, ControlMode.toNat, State.call])⟩
    · exact ⟨by simp [set_mode, ControlMode.toNat],
        calls_since_of_append _ _ _ (by simp [set_mode, ControlMode.toNat, State.call])⟩
    · exact absurd rfl hm
  · intro h
    rw [hfalse h]
    exact ⟨rfl, calls_since_self s, rfl⟩
  · intro h
    subst h
    simp [set_mode, ControlMode.toNat]
  · intro h
    have hnot : ¬ (set_mode v s mode).1 = true := by
      rw [hiff]
      rintro (h1 | h1 | h1 | h1 | h1) <;> exact h _ h1
    simpa using hnot

/-- SET_MODE with the value of SCAN is passed on; with the value of
INITIALISING (16) and with 200, no mode at all, it is refused. -/
theorem set_mode_wrapper_witness :
    ControlMode.SCAN ≠ ControlMode.INITIALISING ∧
    (set_mode Facade.nominal State.init 2).2.calls_since State.init =
      [Call.set_mode ControlMode.SCAN mode_reason_t.MODE_REASON_GCS_COMMAND] ∧
    (set_mode Facade.nominal State.init 16).1 = false ∧
    (∀ m : ControlMode, 200 ≠ m.toNat) ∧
    (set_mode Facade.nominal State.init 200).1 = false :=
  ⟨by decide,
    ((set_mode_wrapper Facade.nominal State.init 2).2.1 ControlMode.SCAN (by decide) rfl).2,
    (set_mode_wrapper Facade.nominal State.init 16).2.2.2.1 rfl,
    fun m => by cases m <;> decide,
    (set_mode_wrapper Facade.nominal State.init 200).2.2.2.2 (fun m => by cases m <;> decide)⟩

/-! ## Local frames -/

theorem tell_command_local_ned (b : Build) (home : Location) (packet : mavlink_mission_item_t)
    (hbuild : b.labels_distinct) (hframe : b.MAV_FRAME_LOCAL_NED = some packet.frame) :
    tell_command b home packet =
      (MAV_MISSION_RESULT.MAV_MISSION_ACCEPTED,
        { lat := F32.toInt32 b.invalid_int32 (F32.add (F32.mul (F32.ofInt 10000000)
            (b.ToDeg (F32.div packet.x (F32.mul b.RADIUS_OF_EARTH (b.cosf (b.ToRad
              (F32.div (F32.ofInt home.lat) (F32.ofInt 10000000)))))))) (F32.ofInt home.lat)),
          lng := F32.toInt32 b.invalid_int32 (F32.add (F32.mul (F32.ofInt 10000000)
            (b.ToDeg (F32.div packet.y b.RADIUS_OF_EARTH))) (F32.ofInt home.lng)),
          alt := F32.toInt32 b.invalid_int32 (F32.mul (F32.neg packet.z) (F32.ofInt 100)),
          options := MASK_OPTIONS_RELATIVE_ALT }) := by
  obtain ⟨hmission, hglobal, _⟩ := hbuild
  have h1 : ¬ (packet.frame = MAV_FRAME_MISSION ∨ packet.frame = MAV_FRAME_GLOBAL) := by
    rintro (h | h)
    · exact hmission (by rw [hframe, h])
    · exact hglobal (by rw [hframe, h])
  unfold tell_command
  simp only
  rw [if_neg h1, if_pos hframe]

theorem tell_command_local (b : Build) (home : Location) (packet : mavlink_mission_item_t)
    (hbuild : b.labels_distinct) (hframe : b.MAV_FRAME_LOCAL = some packet.frame) :
    tell_command b home packet =
      (MAV_MISSION_RESULT.MAV_MISSION_ACCEPTED,
        { lat := F32.toInt32 b.invalid_int32 (F32.add (F32.mul (F32.ofInt 10000000)
            (b.ToDeg (F32.div packet.x (F32.mul b.RADIUS_OF_EARTH (b.cosf (b.ToRad
              (F32.div (F32.ofInt home.lat) (F32.ofInt 10000000)))))))) (F32.ofInt home.lat)),
          lng := F32.toInt32 b.invalid_int32 (F32.add (F32.mul (F32.ofInt 10000000)
            (b.ToDeg (F32.div packet.y b.RADIUS_OF_EARTH))) (F32.ofInt home.lng)),
          alt := F32.toInt32 b.invalid_int32 (F32.mul packet.z (F32.ofInt 100)),
          options := MASK_OPTIONS_RELATIVE_ALT }) := by
  obtain ⟨_, _, _, hmission, hglobal, _, hdistinct⟩ := hbuild
  have h1 : ¬ (packet.frame = MAV_FRAME_MISSION ∨ packet.frame = MAV_FRAME_GLOBAL) := by
    rintro (h | h)
    · exact hmission (by rw [hframe, h])
    · exact hglobal (by rw [hframe, h])
  have h2 : ¬ b.MAV_FRAME_LOCAL_NED = some packet.frame := by
    intro h
    rcases hdistinct with hnone | hne
    · rw [hnone] at h; cases h
    · exact hne (by rw [h, hframe])
  unfold tell_command
  simp only
  rw [if_neg h1, if_neg h2, if_pos hframe]

/-- The lines of the local-NED case (460-465), read as they would run in a
build that defined `MAV_FRAME_LOCAL_NED` as a preprocessor name: home at 60
degrees north, item 1000 m north (x), 1000 m east (y), 50 m down (z). They
move the latitude by 179648 (the offset divided by the cosine of the home
latitude) and the longitude by 89832 (no cosine); a flat-earth offset with
the cosine on the longitude gives 89856 and 179664. With a cosine that is 1
everywhere the latitude changes and the longitude does not. The altitude is
-100 * z, flagged relative. -/
theorem tell_command_local_ned_cosine_on_latitude :
    tell_command (Build.local_ned cosf_at_60_degrees) home_60_north
        (mission_item 1 0 (F32.ofInt 1000) (F32.ofInt 1000) (F32.ofInt 50)) =
      (MAV_MISSION_RESULT.MAV_MISSION_ACCEPTED,
        { lat := 600179648, lng := 89832, alt := -5000, options := MASK_OPTIONS_RELATIVE_ALT }) ∧
    tell_command (Build.local_ned cosf_one) home_60_north
        (mission_item 1 0 (F32.ofInt 1000) (F32.ofInt 1000) (F32.ofInt 50)) =
      (MAV_MISSION_RESULT.MAV_MISSION_ACCEPTED,
        { lat := 600089856, lng := 89832, alt := -5000, options := MASK_OPTIONS_RELATIVE_ALT }) ∧
    F32.toInt32 (Build.local_ned cosf_at_60_degrees).invalid_int32
      (F32.add (F32.mul (F32.ofInt 10000000)
        ((Build.local_ned cosf_at_60_degrees).ToDeg
          (F32.div (F32.ofInt 1000) (Build.local_ned cosf_at_60_degrees).RADIUS_OF_EARTH)))
        (F32.ofInt home_60_north.lat)) = 600089856 ∧
    F32.toInt32 (Build.local_ned cosf_at_60_degrees).invalid_int32
      (F32.add (F32.mul (F32.ofInt 10000000)
        ((Build.local_ned cosf_at_60_degrees).ToDeg
          (F32.div (F32.ofInt 1000)
            (F32.mul (Build.local_ned cosf_at_60_degrees).RADIUS_OF_EARTH
              ((Build.local_ned cosf_at_60_degrees).cosf
                ((Build.local_ned cosf_at_60_degrees).ToRad
                  (F32.div (F32.ofInt home_60_north.lat) (F32.ofInt 10000000))))))))
        (F32.ofInt home_60_north.lng)) = 179664 ∧
    (handleMessage (Build.local_ned cosf_at_60_degrees) (State.receiving_at home_60_north)
      (mission_item_message 255 0
        (mission_item 1 0 (F32.ofInt 1000) (F32.ofInt 1000) (F32.ofInt 50)))).home =
      some { lat := 600179648, lng := 89832, alt := -5000,
             options := MASK_OPTIONS_RELATIVE_ALT } := by
  decide

/-- C21: in the base mode, for every control mode and every state of the
safety switch: the CUSTOM_MODE_ENABLED bit is set; the SAFETY_ARMED bit is
set if and only if the switch is not SAFETY_DISARMED; the MANUAL_INPUT_ENABLED
bit if and only if the mode is MANUAL; the GUIDED_ENABLED bit, the
STABILIZE_ENABLED bit, and so both, if and only if the mode is SCAN,
SERVO_TEST or AUTO; and none of the other bits (TEST_ENABLED, AUTO_ENABLED,
HIL_ENABLED, or anything beyond the eight bits of a byte) is ever set. -/
theorem base_mode_flags (v : Facade) (s : State) :
    base_mode v s &&& MAV_MODE_FLAG_CUSTOM_MODE_ENABLED = MAV_MODE_FLAG_CUSTOM_MODE_ENABLED ∧
    (base_mode v s &&& MAV_MODE_FLAG_SAFETY_ARMED = MAV_MODE_FLAG_SAFETY_ARMED ↔
      v.safety_switch_state ≠ safety_state.SAFETY_DISARMED) ∧
    (base_mode v s &&& MAV_MODE_FLAG_MANUAL_INPUT_ENABLED = MAV_MODE_FLAG_MANUAL_INPUT_ENABLED ↔
      s.control_mode = ControlMode.MANUAL) ∧
    (base_mode v s &&& MAV_MODE_FLAG_GUIDED_ENABLED = MAV_MODE_FLAG_GUIDED_ENABLED ↔
      (s.control_mode = ControlMode.SCAN ∨ s.control_mode = ControlMode.SERVO_TEST ∨
        s.control_mode = ControlMode.AUTO)) ∧
    (base_mode v s &&& MAV_MODE_FLAG_STABILIZE_ENABLED = MAV_MODE_FLAG_STABILIZE_ENABLED ↔
      (s.control_mode = ControlMode.SCAN ∨ s.control_mode = ControlMode.SERVO_TEST ∨
        s.control_mode = ControlMode.AUTO)) ∧
    ((base_mode v s &&& MAV_MODE_FLAG_GUIDED_ENABLED = MAV_MODE_FLAG_GUIDED_ENABLED ∧
        base_mode v s &&& MAV_MODE_FLAG_STABILIZE_ENABLED = MAV_MODE_FLAG_STABILIZE_ENABLED) ↔
      (s.control_mode = ControlMode.SCAN ∨ s.control_mode = ControlMode.SERVO_TEST ∨
        s.control_mode = ControlMode.AUTO)) ∧
    base_mode v s &&& MAV_MODE_FLAG_AUTO_ENABLED = 0 ∧
    base_mode v s &&& MAV_MODE_FLAG_TEST_ENABLED = 0 ∧
    base_mode v s &&& MAV_MODE_FLAG_HIL_ENABLED = 0 ∧
    base_mode v s < 256 := by
  unfold base_mode
  generalize s.control_mode = mode
  generalize v.safety_switch_state = safety
  cases mode <;> cases safety <;> decide

/-- On a fresh link (INITIALISING) with the safety switch armed the base mode
is CUSTOM_MODE_ENABLED + SAFETY_ARMED = 129; in MANUAL with the switch
disarmed it is CUSTOM_MODE_ENABLED + MANUAL_INPUT_ENABLED = 65, without the
SAFETY_ARMED bit. -/
theorem base_mode_flags_witness :
    base_mode Facade.nominal State.init = 129 ∧
    base_mode Facade.nominal State.init &&& MAV_MODE_FLAG_AUTO_ENABLED = 0 ∧
    base_mode Facade.failing { State.init with control_mode := ControlMode.MANUAL } = 65 ∧
    ¬ (base_mode Facade.failing { State.init with control_mode := ControlMode.MANUAL } &&&
        MAV_MODE_FLAG_SAFETY_ARMED = MAV_MODE_FLAG_SAFETY_ARMED) :=
  ⟨by decide, (base_mode_flags Facade.nominal State.init).2.2.2.2.2.2.1, by decide,
    fun h => ((base_mode_flags Facade.failing
      { State.init with control_mode := ControlMode.MANUAL }).2.1.mp h) rfl⟩
